import Mathlib

set_option maxRecDepth 4000

/-!
Verification development for the libigc flight reconstruction engine.

The Python sources under `libigc/` are shallowly embedded here:
pure functions become Lean functions, the stateful passes of
`Flight.__init__` become explicit state-passing recursions, Python
floats are modelled as exact rationals (`ℚ`) except for the
geo-derived quantities (great-circle distance, bearing), which are
values of an arbitrary linear ordered field `α` so that both `ℚ` and
`ℝ` instantiations are possible.  Fallible operations (Python
exceptions such as `ZeroDivisionError`) are modelled with `Option`.

The modules `libigc/lib/geo.py` and `libigc/lib/viterbi.py` are
imported by `libigc/core.py` but are not part of the sources at hand;
they are modelled from the specification (see `spec_earth_distance`,
`spec_bearing_to` and `viterbiDecode` below).
-/

namespace Libigc

/-- Configuration record mirroring `FlightParsingConfig`
(`libigc/flight_parsing_config.py`).  `which_flight_to_pick` is the
boolean `pick_first_flight` (`true` for `"first"`, `false` for
`"concat"`). -/
structure FlightParsingConfig where
  min_fixes : ℕ
  max_seconds_between_fixes : ℚ
  min_seconds_between_fixes : ℚ
  max_time_violations : ℕ
  max_new_days_in_flight : ℕ
  min_avg_abs_alt_change : ℚ
  max_alt_change_rate : ℚ
  max_alt_change_violations : ℕ
  max_alt : ℚ
  min_alt : ℚ
  min_gsp_flight : ℚ
  min_landing_time : ℚ
  pick_first_flight : Bool
  min_bearing_change_circling : ℚ
  min_time_for_bearing_change : ℚ
  min_time_for_thermal : ℚ
deriving DecidableEq, Repr

/-- The default configuration values of `FlightParsingConfig`. -/
def defaultConfig : FlightParsingConfig where
  min_fixes := 50
  max_seconds_between_fixes := 50
  min_seconds_between_fixes := 1
  max_time_violations := 10
  max_new_days_in_flight := 2
  min_avg_abs_alt_change := 1/100
  max_alt_change_rate := 50
  max_alt_change_violations := 3
  max_alt := 10000
  min_alt := -600
  min_gsp_flight := 15
  min_landing_time := 300
  pick_first_flight := false
  min_bearing_change_circling := 6
  min_time_for_bearing_change := 5
  min_time_for_thermal := 60

/-- A single GNSS fix (`libigc/gnss_fix.py`, class `GNSSFix`).  The
`alt` field corresponds to the attribute assigned by `set_flight`; it
is `0` until the engine assigns it. -/
structure GNSSFix where
  rawtime : ℚ
  lat : ℚ
  lon : ℚ
  validity : Char
  press_alt : ℚ
  gnss_alt : ℚ
  index : ℕ
  extras : String
  alt : ℚ := 0
deriving DecidableEq, Repr

instance : Inhabited GNSSFix :=
  ⟨⟨0, 0, 0, 'A', 0, 0, 0, "", 0⟩⟩

/-- Diagnostic notes appended to `Flight.notes`.  Each constructor
stands for one of the `%`-formatted strings of `libigc/core.py`, with
the formatted numbers as arguments. -/
inductive Note where
  | tooFewFixes (found expected : ℕ)
  | pressAvgTooLow (avg minimum : ℚ)
  | pressTooManyHugeChanges (found allowed : ℕ)
  | pressEnvelopeExceeded (count : ℕ)
  | gnssAvgTooLow (avg minimum : ℚ)
  | gnssTooManyHugeChanges (found allowed : ℕ)
  | gnssEnvelopeExceeded (count : ℕ)
  | tooManyTimeViolations (allowed found : ℕ)
  | tooManyDays (allowed found : ℕ)
  | noAltitudeSource
  | noDateRecord
  | didNotDetectTakeoff
deriving DecidableEq, Repr

/-- Altitude source chosen by the engine (`alt_source` attribute). -/
inductive AltSource where
  | press
  | gnss
deriving DecidableEq, Repr

/-! ### B-record parsing (`GNSSFix.build_from_B_record`) -/

/-- Numeric value of a decimal digit character. -/
def digitVal (c : Char) : ℕ := c.toNat - '0'.toNat

/-- Characters admitted in the `extras` field by the B-record regular
expression character class `[0-9a-zA-Z\-]`. -/
def isExtraChar (c : Char) : Bool := c.isDigit || c.isAlpha || c == '-'

/-- Parses a fixed-width two-digit decimal field. -/
def parse2 (cs : List Char) : Option ℕ :=
  match cs with
  | [a, b] => if a.isDigit && b.isDigit then some (10 * digitVal a + digitVal b) else none
  | _ => none

/-- Parses a fixed-width three-digit decimal field. -/
def parse3 (cs : List Char) : Option ℕ :=
  match cs with
  | [a, b, c] =>
    if a.isDigit && b.isDigit && c.isDigit then
      some (100 * digitVal a + 10 * digitVal b + digitVal c)
    else none
  | _ => none

/-- Parses a five-character altitude field matching `[-\d]\d\d\d\d`:
an optional minus sign in the first column, then four digits. -/
def parseAlt (cs : List Char) : Option ℤ :=
  match cs with
  | [a, b, c, d, e] =>
    if b.isDigit && c.isDigit && d.isDigit && e.isDigit then
      let tail : ℤ := 1000 * digitVal b + 100 * digitVal c + 10 * digitVal d + digitVal e
      if a == '-' then some (-tail)
      else if a.isDigit then some (10000 * (digitVal a : ℤ) + tail)
      else none
    else none
  | _ => none

/-- Embedding of `GNSSFix.build_from_B_record`.  The regular
expression of the source is decomposed positionally: `B`, six time
digits, `DDMMmmm[NS]`, `DDDMMmmm[EW]`, `[AV]`, two five-character
altitude fields, then the greedy `[0-9a-zA-Z\-]*` extras (the final
`.*$` of the pattern accepts any remaining characters). -/
def GNSSFix.build_from_B_record (line : String) (index : ℕ) : Option GNSSFix :=
  let cs := line.toList
  match cs with
  | [] => none
  | c0 :: rest =>
    if c0 == 'B' then
      match parse2 (rest.take 2), parse2 ((rest.drop 2).take 2), parse2 ((rest.drop 4).take 2),
            parse2 ((rest.drop 6).take 2), parse2 ((rest.drop 8).take 2),
            parse3 ((rest.drop 10).take 3),
            parse3 ((rest.drop 14).take 3), parse2 ((rest.drop 17).take 2),
            parse3 ((rest.drop 19).take 3),
            parseAlt ((rest.drop 24).take 5), parseAlt ((rest.drop 29).take 5) with
      | some hours, some minutes, some seconds,
        some lat_deg, some lat_min, some lat_min_dec,
        some lon_deg, some lon_min, some lon_min_dec,
        some press_alt, some gnss_alt =>
        let lat_sign := rest.getD 13 ' '
        let lon_sign := rest.getD 22 ' '
        let validity := rest.getD 23 ' '
        if (lat_sign == 'N' || lat_sign == 'S') && (lon_sign == 'E' || lon_sign == 'W')
            && (validity == 'A' || validity == 'V') then
          let rawtime : ℚ := ((hours : ℚ) * 60 + minutes) * 60 + seconds
          let lat0 : ℚ := (lat_deg : ℚ) + (lat_min : ℚ) / 60 + (lat_min_dec : ℚ) / 1000 / 60
          let lat : ℚ := if lat_sign == 'S' then -lat0 else lat0
          let lon0 : ℚ := (lon_deg : ℚ) + (lon_min : ℚ) / 60 + (lon_min_dec : ℚ) / 1000 / 60
          let lon : ℚ := if lon_sign == 'W' then -lon0 else lon0
          let extras := String.mk ((rest.drop 34).takeWhile isExtraChar)
          some ⟨rawtime, lat, lon, validity, (press_alt : ℚ), (gnss_alt : ℚ), index, extras, 0⟩
        else none
      | _, _, _, _, _, _, _, _, _, _, _ => none
    else none

/-! ### B-record emission (`GNSSFix.to_B_record`) -/

/-- Decimal digit character for a value below ten. -/
def digitChar (n : ℕ) : Char := Char.ofNat (48 + n)

/-- Decimal digits of a natural number, most significant first. -/
def natDigits (n : ℕ) : List Char :=
  if _h : n < 10 then [digitChar n]
  else natDigits (n / 10) ++ [digitChar (n % 10)]
termination_by n
decreasing_by
  exact Nat.div_lt_self (by omega) (by omega)

/-- Zero-padded decimal rendering of a natural number to a minimum
width, as produced by Python `"%0wd"` for non-negative values. -/
def padNat (width n : ℕ) : List Char :=
  let ds := natDigits n
  List.replicate (width - ds.length) '0' ++ ds

/-- Zero-padded decimal rendering of an integer to a minimum total
width (the sign occupies one column), as produced by Python
`"%0wd"`. -/
def padInt (width : ℕ) (n : ℤ) : List Char :=
  if n < 0 then '-' :: padNat (width - 1) n.natAbs else padNat width n.natAbs

/-- Truncation of a rational towards zero, the behaviour of Python
`int()` on floats. -/
def intTrunc (q : ℚ) : ℤ := if q < 0 then -⌊-q⌋ else ⌊q⌋

/-- Embedding of `GNSSFix.to_B_record`.  Integer division and modulo
follow Python semantics (floor division; all divisors are positive, so
`Int.ediv`/`Int.emod` coincide with them).  `round` agrees with the
source because its argument is non-negative in both branches. -/
def GNSSFix.to_B_record (f : GNSSFix) : String :=
  let rt : ℤ := intTrunc f.rawtime
  let hours := rt.ediv 3600
  let minutes := (rt.emod 3600).ediv 60
  let seconds := rt.emod 60
  let latAbs : ℚ := if f.lat < 0 then -f.lat else f.lat
  let lat_sign : Char := if f.lat < 0 then 'S' else 'N'
  let latU : ℤ := round (latAbs * 60000)
  let lat_deg := latU.ediv 60000
  let lat_min := (latU.emod 60000).ediv 1000
  let lat_min_dec := latU.emod 1000
  let lonAbs : ℚ := if f.lon < 0 then -f.lon else f.lon
  let lon_sign : Char := if f.lon < 0 then 'W' else 'E'
  let lonU : ℤ := round (lonAbs * 60000)
  let lon_deg := lonU.ediv 60000
  let lon_min := (lonU.emod 60000).ediv 1000
  let lon_min_dec := lonU.emod 1000
  let press_alt := intTrunc f.press_alt
  let gnss_alt := intTrunc f.gnss_alt
  String.mk
    ('B' :: padInt 2 hours ++ padInt 2 minutes ++ padInt 2 seconds
      ++ padInt 2 lat_deg ++ padInt 2 lat_min ++ padInt 3 lat_min_dec ++ [lat_sign]
      ++ padInt 3 lon_deg ++ padInt 2 lon_min ++ padInt 3 lon_min_dec ++ [lon_sign]
      ++ [f.validity]
      ++ padInt 5 press_alt ++ padInt 5 gnss_alt
      ++ f.extras.toList)

/-! ### Altitude sanity check (`Flight._check_altitudes`) -/

/-- Accumulator of `Flight._check_altitudes`: envelope-violation
counts, huge-change counts and absolute-change sums per sensor. -/
structure AltAcc where
  pressViol : ℕ
  gnssViol : ℕ
  pressHuge : ℕ
  gnssHuge : ℕ
  pressSum : ℚ
  gnssSum : ℚ
deriving DecidableEq, Repr

/-- One iteration of the loop of `Flight._check_altitudes`, for the
adjacent pair `(a, b) = (fixes[i], fixes[i+1])`; the envelope tests
apply to `a = fixes[i]` only. -/
def altStep (cfg : FlightParsingConfig) (acc : AltAcc) (a b : GNSSFix) : AltAcc :=
  let pd := |b.press_alt - a.press_alt|
  let gd := |b.gnss_alt - a.gnss_alt|
  let rtd := |b.rawtime - a.rawtime|
  { pressHuge := acc.pressHuge +
      (if rtd > 1/2 ∧ pd / rtd > cfg.max_alt_change_rate then 1 else 0),
    pressSum := acc.pressSum +
      (if rtd > 1/2 ∧ ¬ pd / rtd > cfg.max_alt_change_rate then pd else 0),
    gnssHuge := acc.gnssHuge +
      (if rtd > 1/2 ∧ gd / rtd > cfg.max_alt_change_rate then 1 else 0),
    gnssSum := acc.gnssSum +
      (if rtd > 1/2 ∧ ¬ gd / rtd > cfg.max_alt_change_rate then gd else 0),
    pressViol := acc.pressViol +
      (if a.press_alt > cfg.max_alt ∨ a.press_alt < cfg.min_alt then 1 else 0),
    gnssViol := acc.gnssViol +
      (if a.gnss_alt > cfg.max_alt ∨ a.gnss_alt < cfg.min_alt then 1 else 0) }

/-- The loop of `Flight._check_altitudes` over adjacent pairs. -/
def altLoop (cfg : FlightParsingConfig) : List GNSSFix → AltAcc → AltAcc
  | a :: b :: rest, acc => altLoop cfg (b :: rest) (altStep cfg acc a b)
  | _, acc => acc

/-- Embedding of `Flight._check_altitudes`.  Returns
`(press_alt_valid, gnss_alt_valid, notes)`. -/
def check_altitudes (cfg : FlightParsingConfig) (fixes : List GNSSFix) :
    Bool × Bool × List Note :=
  let acc := altLoop cfg fixes ⟨0, 0, 0, 0, 0, 0⟩
  let press_chgs_avg : ℚ := acc.pressSum / ((fixes.length : ℚ) - 1)
  let gnss_chgs_avg : ℚ := acc.gnssSum / ((fixes.length : ℚ) - 1)
  let pn1 : List Note :=
    if press_chgs_avg < cfg.min_avg_abs_alt_change then
      [.pressAvgTooLow press_chgs_avg cfg.min_avg_abs_alt_change] else []
  let pn2 : List Note :=
    if acc.pressHuge > cfg.max_alt_change_violations then
      [.pressTooManyHugeChanges acc.pressHuge cfg.max_alt_change_violations] else []
  let pn3 : List Note :=
    if acc.pressViol > 0 then [.pressEnvelopeExceeded acc.pressViol] else []
  let gn1 : List Note :=
    if gnss_chgs_avg < cfg.min_avg_abs_alt_change then
      [.gnssAvgTooLow gnss_chgs_avg cfg.min_avg_abs_alt_change] else []
  let gn2 : List Note :=
    if acc.gnssHuge > cfg.max_alt_change_violations then
      [.gnssTooManyHugeChanges acc.gnssHuge cfg.max_alt_change_violations] else []
  let gn3 : List Note :=
    if acc.gnssViol > 0 then [.gnssEnvelopeExceeded acc.gnssViol] else []
  let press_ok : Bool := pn1.isEmpty && pn2.isEmpty && pn3.isEmpty
  let gnss_ok : Bool := gn1.isEmpty && gn2.isEmpty && gn3.isEmpty
  (press_ok, gnss_ok, pn1 ++ pn2 ++ pn3 ++ gn1 ++ gn2 ++ gn3)

/-! ### Time sanity and midnight rollover (`Flight._check_fix_rawtime`) -/

/-- The loop of `Flight._check_fix_rawtime`.  Arguments: corrected
rawtime of the previous fix, running offset (`rawtime_to_add`),
`days_added`, `rawtime_between_fix_exceeded`, remaining fixes.
Returns the corrected remaining fixes, `days_added` and the violation
count. -/
def rawtimeLoop (cfg : FlightParsingConfig) :
    ℚ → ℚ → ℕ → ℕ → List GNSSFix → List GNSSFix × ℕ × ℕ
  | _, _, days, viol, [] => ([], days, viol)
  | prev, offs, days, viol, f :: rest =>
    let r1 := f.rawtime + offs
    let daySwitch : Bool := decide (prev > r1 ∧ r1 + 86400 < prev + 200)
    let r2 := if daySwitch then r1 + 86400 else r1
    let offs2 := if daySwitch then offs + 86400 else offs
    let days2 := if daySwitch then days + 1 else days
    let tc := r2 - prev
    let viol2 := viol
      + (if tc < cfg.min_seconds_between_fixes - 1/100000 then 1 else 0)
      + (if tc > cfg.max_seconds_between_fixes + 1/100000 then 1 else 0)
    let out := rawtimeLoop cfg r2 offs2 days2 viol2 rest
    ({ f with rawtime := r2 } :: out.1, out.2)

/-- Embedding of `Flight._check_fix_rawtime`.  Returns the fixes with
repaired rawtimes, `days_added` and the count of inter-fix time
violations.  The flight is declared invalid by the caller when the
count exceeds `max_time_violations` or `days_added` exceeds
`max_new_days_in_flight`. -/
def check_fix_rawtime (cfg : FlightParsingConfig) (fixes : List GNSSFix) :
    List GNSSFix × ℕ × ℕ :=
  match fixes with
  | [] => ([], 0, 0)
  | f0 :: rest =>
    let out := rawtimeLoop cfg f0.rawtime 0 0 0 rest
    (f0 :: out.1, out.2)

/-- Number of adjacent pairs of a rawtime sequence whose gap is below
`min_seconds_between_fixes - 1e-5` (in particular every out-of-order
pair). -/
def countLowGaps (cfg : FlightParsingConfig) (l : List ℚ) : ℕ :=
  (l.zip l.tail).countP (fun p => decide (p.2 - p.1 < cfg.min_seconds_between_fixes - 1/100000))

/-! ### Ground speeds and flying emissions
(`Flight._compute_ground_speeds`, `Flight._flying_emissions`) -/

/-- Embedding of `Flight._compute_ground_speeds`: `gsp[0] = 0` and
`gsp[i] = distance(i, i-1) / Δrawtime · 3600`, zero when
`|Δrawtime| < 1e-5`. -/
def computeGroundSpeeds {α : Type} [LinearOrderedField α]
    (dist : GNSSFix → GNSSFix → α) (fixes : List GNSSFix) : List α :=
  match fixes with
  | [] => []
  | _ :: _ =>
    0 :: (fixes.zip fixes.tail).map (fun p =>
      if |p.2.rawtime - p.1.rawtime| < 1/100000 then 0
      else dist p.2 p.1 / ((p.2.rawtime - p.1.rawtime : ℚ) : α) * 3600)

/-- Embedding of `Flight._flying_emissions`: emission `1` when the
ground speed exceeds `min_gsp_flight`, else `0`. -/
def flyingEmissions {α : Type} [LinearOrderedField α]
    (cfg : FlightParsingConfig) (gsps : List α) : List ℕ :=
  gsps.map (fun g => if (cfg.min_gsp_flight : α) < g then 1 else 0)

/-! ### Viterbi decoder

Modelled from the spec: `libigc/lib/viterbi.py`
(`SimpleViterbiDecoder`) is not among the sources.  §4.2 prescribes a
two-state decoder returning the most likely state path, ties broken
toward the lower state index, with backtracking from the terminal
argmax.  The source works in log-probability space only to avoid
floating-point underflow; over exact rationals the max-product
recursion below decides the same comparisons.  The engine only ever
produces observations `0` and `1`. -/

/-- Parameters of a two-state hidden Markov model: initial,
transition and emission probabilities. -/
structure HMMParams where
  init0 : ℚ
  init1 : ℚ
  t00 : ℚ
  t01 : ℚ
  t10 : ℚ
  t11 : ℚ
  e00 : ℚ
  e01 : ℚ
  e10 : ℚ
  e11 : ℚ
deriving DecidableEq, Repr

/-- Emission probability of observation `o` in state `s` (state
`false` is 0/standing-or-straight, `true` is 1). -/
def emProb (h : HMMParams) (s : Bool) (o : ℕ) : ℚ :=
  match s, o with
  | false, 0 => h.e00
  | false, _ => h.e01
  | true, 0 => h.e10
  | true, _ => h.e11

/-- Forward pass of the Viterbi decoder: given the path scores of the
two states, processes the remaining observations and returns the
backpointer pairs (for state 0 and state 1) of each step together
with the terminal scores. -/
def viterbiForward (h : HMMParams) : ℚ → ℚ → List ℕ → List (Bool × Bool) × ℚ × ℚ
  | v0, v1, [] => ([], v0, v1)
  | v0, v1, o :: rest =>
    let c00 := v0 * h.t00
    let c10 := v1 * h.t10
    let b0 : Bool := decide (c00 < c10)
    let w0 := max c00 c10 * emProb h false o
    let c01 := v0 * h.t01
    let c11 := v1 * h.t11
    let b1 : Bool := decide (c01 < c11)
    let w1 := max c01 c11 * emProb h true o
    let res := viterbiForward h w0 w1 rest
    ((b0, b1) :: res.1, res.2)

/-- Backtracking through reversed backpointers, producing the state
path in reverse order. -/
def backtrace : Bool → List (Bool × Bool) → List Bool
  | s, [] => [s]
  | s, (b0, b1) :: rest => s :: backtrace (if s then b1 else b0) rest

/-- The most likely state path for the given observations, as `0`/`1`
values (the output alphabet of `SimpleViterbiDecoder.decode`). -/
def viterbiDecode (h : HMMParams) (observations : List ℕ) : List ℕ :=
  match observations with
  | [] => []
  | o :: rest =>
    let v0 := h.init0 * emProb h false o
    let v1 := h.init1 * emProb h true o
    let res := viterbiForward h v0 v1 rest
    let lastState : Bool := decide (res.2.1 < res.2.2)
    ((backtrace lastState res.1.reverse).reverse).map (fun s => if s then 1 else 0)

/-- The flying/standing HMM parameters hard-coded in
`Flight._compute_flight`. -/
def flyingHMM : HMMParams :=
  ⟨4/5, 1/5, 1999/2000, 1/2000, 1/2000, 1999/2000, 4/5, 1/5, 1/5, 4/5⟩

/-- The circling/straight HMM parameters hard-coded in
`Flight._compute_circling`. -/
def circlingHMM : HMMParams :=
  ⟨4/5, 1/5, 491/500, 9/500, 3/100, 97/100, 471/500, 29/500, 93/1000, 907/1000⟩

/-! ### Landing duration filter (`Flight._compute_flight`, step 2) -/

/-- Rawtime of the next fix whose decoded output is flying (`1`), if
any; the scan the source performs from `j = i + 1` onwards. -/
def findNextFlyingRawtime : List (ℚ × ℕ) → Option ℚ
  | [] => none
  | (rt, o) :: rest => if o = 1 then some rt else findNextFlyingRawtime rest

/-- Step 2 of `Flight._compute_flight`: walks the fixes (as pairs of
rawtime and decoded output) carrying the `ignore_next_downtime` and
`apply_next_downtime` flags, and produces the final `flying` flags. -/
def landingFilterLoop (minLanding : ℚ) : Bool → Bool → List (ℚ × ℕ) → List Bool
  | _, _, [] => []
  | ignoreNext, applyNext, (rt, o) :: rest =>
    if o = 1 then true :: landingFilterLoop minLanding false false rest
    else if applyNext then false :: landingFilterLoop minLanding ignoreNext applyNext rest
    else if ignoreNext then true :: landingFilterLoop minLanding ignoreNext applyNext rest
    else
      match findNextFlyingRawtime rest with
      | none => false :: landingFilterLoop minLanding false true rest
      | some rtNext =>
        if rtNext - rt ≥ minLanding then false :: landingFilterLoop minLanding false true rest
        else true :: landingFilterLoop minLanding true false rest

/-- Embedding of `Flight._compute_flight`: Viterbi decoding of the
flying emissions followed by the landing duration filter. -/
def compute_flight {α : Type} [LinearOrderedField α] (cfg : FlightParsingConfig)
    (dist : GNSSFix → GNSSFix → α) (fixes : List GNSSFix) : List Bool :=
  let emissions := flyingEmissions cfg (computeGroundSpeeds dist fixes)
  let outputs := viterbiDecode flyingHMM emissions
  landingFilterLoop cfg.min_landing_time false false ((fixes.map GNSSFix.rawtime).zip outputs)

/-! ### Takeoff and landing (`Flight._compute_takeoff_landing`) -/

/-- The loop of `Flight._compute_takeoff_landing` over fixes paired
with their `flying` flags, carrying the candidate takeoff and landing
fixes and `was_flying`. -/
def takeoffLandingLoop (pickFirst : Bool) :
    Option GNSSFix → Option GNSSFix → Bool → List (GNSSFix × Bool) →
    Option GNSSFix × Option GNSSFix
  | tkf, lnd, _, [] => (tkf, lnd)
  | tkf, lnd, wasFlying, (f, fl) :: rest =>
    let tkf2 := if fl && tkf.isNone then some f else tkf
    if !fl && wasFlying then
      if pickFirst then (tkf2, some f)
      else takeoffLandingLoop pickFirst tkf2 (some f) fl rest
    else takeoffLandingLoop pickFirst tkf2 lnd fl rest

/-- Embedding of `Flight._compute_takeoff_landing`: `none` when no fix
is flying (takeoff not detected; `takeoff_fix`/`landing_fix` stay
unset), otherwise the takeoff fix and the landing fix (falling back to
the last fix when the log ends in flight). -/
def compute_takeoff_landing (cfg : FlightParsingConfig)
    (fixesFlags : List (GNSSFix × Bool)) : Option (GNSSFix × GNSSFix) :=
  let res := takeoffLandingLoop cfg.pick_first_flight none none false fixesFlags
  match res.1 with
  | none => none
  | some t =>
    match res.2 with
    | some l => some (t, l)
    | none => some (t, ((fixesFlags.getLast?).map Prod.fst).getD t)

/-! ### Bearings and bearing change rates
(`Flight._compute_bearings`, `Flight._compute_bearing_change_rates`) -/

/-- Embedding of `Flight._compute_bearings`: bearing to the next fix,
with the last fix copying its predecessor. -/
def compute_bearings {α : Type} (bearingTo : GNSSFix → GNSSFix → α)
    (fixes : List GNSSFix) : List α :=
  let bs := (fixes.zip fixes.tail).map (fun p => bearingTo p.1 p.2)
  bs ++ bs.getLast?.toList

/-- The descending scan of `find_prev_fix` starting at index `i`
(inclusive) and stopping before index `0`, exactly as
`range(curr_fix - 1, 0, -1)` does. -/
def findPrevFixFrom (cfg : FlightParsingConfig) (ts : List ℚ) (curr : ℕ) :
    ℕ → Option ℕ
  | 0 => none
  | i + 1 =>
    if |ts.getD curr 0 - ts.getD (i + 1) 0| > cfg.min_time_for_bearing_change - 1/10000000
    then some (i + 1)
    else findPrevFixFrom cfg ts curr i

/-- Embedding of the nested `find_prev_fix` of
`Flight._compute_bearing_change_rates`. -/
def find_prev_fix (cfg : FlightParsingConfig) (ts : List ℚ) (curr : ℕ) : Option ℕ :=
  findPrevFixFrom cfg ts curr (curr - 1)

/-- First while-loop of `normalize_bearing_change`: subtract 360 while
above 180. -/
def normDown {α : Type} [LinearOrderedField α] [FloorRing α] (change : α) : α :=
  if h : 180 < change then normDown (change - 360) else change
termination_by (⌈change⌉ + 180).toNat
decreasing_by
  have h1 : (179 : ℤ) < ⌈change⌉ := Int.lt_ceil.mpr (by push_cast; linarith)
  have h2 : ⌈change - 360⌉ = ⌈change⌉ - 360 := by
    rw [show (360 : α) = ((360 : ℤ) : α) by norm_num, Int.ceil_sub_int]
  simp only [h2]
  omega

/-- Second while-loop of `normalize_bearing_change`: add 360 while
below -180. -/
def normUp {α : Type} [LinearOrderedField α] [FloorRing α] (change : α) : α :=
  if h : change < -180 then normUp (change + 360) else change
termination_by (180 - ⌊change⌋).toNat
decreasing_by
  have h1 : ⌊change⌋ < -180 := Int.floor_lt.mpr (by push_cast; linarith)
  have h2 : ⌊change + 360⌋ = ⌊change⌋ + 360 := by
    rw [show (360 : α) = ((360 : ℤ) : α) by norm_num, Int.floor_add_int]
  simp only [h2]
  omega

/-- Embedding of the nested `normalize_bearing_change` of
`Flight._compute_bearing_change_rates`. -/
def normalize_bearing_change {α : Type} [LinearOrderedField α] [FloorRing α]
    (change : α) : α :=
  normUp (normDown change)

/-- Embedding of `Flight._compute_bearing_change_rates` over the
timestamps and bearings of the fixes. -/
def compute_bearing_change_rates {α : Type} [LinearOrderedField α] [FloorRing α]
    (cfg : FlightParsingConfig) (ts : List ℚ) (bearings : List α) : List α :=
  (List.range ts.length).map (fun curr =>
    match find_prev_fix cfg ts curr with
    | none => 0
    | some j =>
      let bc := normalize_bearing_change (bearings.getD curr 0 - bearings.getD j 0)
      let tc : ℚ := ts.getD curr 0 - ts.getD j 0
      if |tc| < 1/10000000 then 0 else bc / ((tc : ℚ) : α))

/-! ### Circling (`Flight._circling_emissions`, `Flight._compute_circling`) -/

/-- Embedding of `Flight._circling_emissions`: emission `1` when the
fix is flying and its absolute bearing change rate exceeds
`min_bearing_change_circling`. -/
def circlingEmissions {α : Type} [LinearOrderedField α] (cfg : FlightParsingConfig)
    (flying : List Bool) (rates : List α) : List ℕ :=
  (flying.zip rates).map (fun p =>
    if p.1 ∧ (cfg.min_bearing_change_circling : α) < |p.2| then 1 else 0)

/-- Embedding of `Flight._compute_circling`. -/
def compute_circling {α : Type} [LinearOrderedField α] (cfg : FlightParsingConfig)
    (flying : List Bool) (rates : List α) : List Bool :=
  (viterbiDecode circlingHMM (circlingEmissions cfg flying rates)).map (fun o => o == 1)

/-! ### Thermals and glides (`libigc/thermal.py`, `libigc/glide.py`) -/

/-- A detected thermal (`Thermal`). -/
structure Thermal where
  enter_fix : GNSSFix
  exit_fix : GNSSFix
deriving DecidableEq, Repr

/-- Time spent in the thermal, seconds (`Thermal.time_change`). -/
def Thermal.time_change (t : Thermal) : ℚ :=
  t.exit_fix.rawtime - t.enter_fix.rawtime

/-- Altitude gained in the thermal, meters (`Thermal.alt_change`). -/
def Thermal.alt_change (t : Thermal) : ℚ :=
  t.exit_fix.alt - t.enter_fix.alt

/-- Average vertical velocity (`Thermal.vertical_velocity`): guarded
by the 1e-7 threshold on the duration. -/
def Thermal.vertical_velocity (t : Thermal) : ℚ :=
  if |t.time_change| < 1/10000000 then 0 else t.alt_change / t.time_change

/-- A detected glide (`Glide`), with its accumulated track length. -/
structure Glide (α : Type) where
  enter_fix : GNSSFix
  exit_fix : GNSSFix
  track_length : α
deriving DecidableEq, Repr

/-- Time spent in the glide, seconds (`Glide.time_change`).  The
source subtracts `timestamp`s; both fixes carry the same
`date_timestamp` offset over `rawtime`, so the difference equals the
rawtime difference. -/
def Glide.time_change {α : Type} (g : Glide α) : ℚ :=
  g.exit_fix.rawtime - g.enter_fix.rawtime

/-- Embedding of `Glide.speed`: the source computes
`track_length / (time_change() / 3600.0)` with no guard, so a glide of
zero duration raises `ZeroDivisionError`, modelled as `none`. -/
def Glide.speed {α : Type} [LinearOrderedField α] (g : Glide α) : Option α :=
  if g.time_change = 0 then none
  else some (g.track_length / ((g.time_change : α) / 3600))

/-- Overall altitude change in the glide, meters (`Glide.alt_change`). -/
def Glide.alt_change {α : Type} (g : Glide α) : ℚ :=
  g.exit_fix.alt - g.enter_fix.alt

/-- Embedding of `Glide.glide_ratio` (named `glideLD` here): guarded
by the 1e-7 threshold on the altitude change. -/
def Glide.glideLD {α : Type} [LinearOrderedField α] (g : Glide α) : α :=
  if |g.alt_change| < 1/10000000 then 0
  else g.track_length * 1000 / ((g.alt_change : α))

/-! ### Thermal extraction (`Flight._find_thermals`) -/

/-- The loop of `Flight._find_thermals`.  State arguments after the
remaining fixes (paired with their `circling` flags): `circling_now`,
`gliding_now`, `first_fix`, `first_glide_fix`, `last_glide_fix`,
`distance`, `distance_start_circling`. -/
def findThermalsLoop {α : Type} [LinearOrderedField α] (cfg : FlightParsingConfig)
    (dist : GNSSFix → GNSSFix → α) :
    List (GNSSFix × Bool) → Bool → Bool → GNSSFix → GNSSFix → GNSSFix → α → α →
    List Thermal × List (Glide α)
  | [], _, glidingNow, _, fgf, lgf, distAcc, _ =>
    if glidingNow then ([], [⟨fgf, lgf, distAcc⟩]) else ([], [])
  | (fix, circ) :: rest, circlingNow, glidingNow, ff, fgf, lgf, distAcc, dsc =>
    let startCirc : Bool := !circlingNow && circ
    let endCirc : Bool := circlingNow && !circ
    let circling2 := if startCirc then true else if endCirc then false else circlingNow
    let ff2 := if startCirc then fix else ff
    let dsc2 := if startCirc then distAcc else dsc
    let thermal : Thermal := ⟨ff, fix⟩
    let accepted : Bool :=
      endCirc && decide (cfg.min_time_for_thermal - 1/100000 < thermal.time_change)
    let newThermals : List Thermal := if accepted then [thermal] else []
    let newGlides : List (Glide α) := if accepted then [⟨fgf, ff, dsc2⟩] else []
    let gliding2 := if accepted then false else glidingNow
    -- after the glide phase `gliding_now` is true in both branches:
    -- the then-branch keeps it (it is true there), the else-branch sets it
    let st :=
      if gliding2 then (fgf, fix, distAcc + dist fix lgf)
      else (fix, fix, (0 : α))
    let res := findThermalsLoop cfg dist rest circling2 true ff2 st.1 st.2.1 st.2.2 dsc2
    (newThermals ++ res.1, newGlides ++ res.2)

/-- Embedding of `Flight._find_thermals`: restricts to the slice from
the takeoff index to the landing index (inclusive) and runs the
extraction loop. -/
def find_thermals {α : Type} [LinearOrderedField α] (cfg : FlightParsingConfig)
    (dist : GNSSFix → GNSSFix → α) (fixes : List GNSSFix) (circFlags : List Bool)
    (takeoffIdx landingIdx : ℕ) : List Thermal × List (Glide α) :=
  let slice := ((fixes.zip circFlags).drop takeoffIdx).take (landingIdx + 1 - takeoffIdx)
  findThermalsLoop cfg dist slice false false default default default 0 0

/-! ### Flight construction (`Flight.__init__`) -/

/-- The `set_flight` pass: assigns `fix.alt` from the chosen altitude
source (`GNSSFix.set_flight`). -/
def setAlts (usePress : Bool) (fixes : List GNSSFix) : List GNSSFix :=
  fixes.map (fun f => { f with alt := if usePress then f.press_alt else f.gnss_alt })

/-- Result of constructing a `Flight`.  Attributes that the source
creates only on some control paths (`hasattr` tests) are `Option`
fields that default to `none`.  Metadata attributes from A/I/H records
(manufacturer, glider type, ...) are not modelled; of step D only the
presence and value of the parsed `HFDTE` date matter downstream, so
the date enters as an `Option ℚ` parameter of `flightInit`. -/
structure FlightResult (α : Type) where
  valid : Bool
  notes : List Note
  fixes : List GNSSFix
  press_alt_valid : Option Bool := none
  gnss_alt_valid : Option Bool := none
  alt_source : Option AltSource := none
  flying : Option (List Bool) := none
  takeoff_fix : Option GNSSFix := none
  landing_fix : Option GNSSFix := none
  thermals : Option (List Thermal) := none
  glides : Option (List (Glide α)) := none

/-- Embedding of `Flight.__init__`: the validation and segmentation
pipeline over a pre-parsed fix list.  `dist` and `bearingTo` are the
two geo primitives the engine calls (`GNSSFix.distance_to`,
`GNSSFix.bearing_to`). -/
def flightInit {α : Type} [LinearOrderedField α] [FloorRing α]
    (cfg : FlightParsingConfig) (dist bearingTo : GNSSFix → GNSSFix → α)
    (fixes : List GNSSFix) (date_timestamp : Option ℚ) : FlightResult α :=
  if fixes.length < cfg.min_fixes then
    { valid := false, notes := [.tooFewFixes fixes.length cfg.min_fixes], fixes := fixes }
  else
    let altRes := check_altitudes cfg fixes
    let pressOk := altRes.1
    let gnssOk := altRes.2.1
    let timeRes := check_fix_rawtime cfg fixes
    let fixes2 := timeRes.1
    let days := timeRes.2.1
    let viol := timeRes.2.2
    let notes2 := altRes.2.2
      ++ (if viol > cfg.max_time_violations then
            [Note.tooManyTimeViolations cfg.max_time_violations viol] else [])
      ++ (if days > cfg.max_new_days_in_flight then
            [Note.tooManyDays cfg.max_new_days_in_flight days] else [])
    if viol > cfg.max_time_violations ∨ days > cfg.max_new_days_in_flight then
      { valid := false, notes := notes2, fixes := fixes2,
        press_alt_valid := some pressOk, gnss_alt_valid := some gnssOk }
    else if pressOk = false ∧ gnssOk = false then
      { valid := false, notes := notes2 ++ [.noAltitudeSource], fixes := fixes2,
        press_alt_valid := some pressOk, gnss_alt_valid := some gnssOk }
    else
      let src : AltSource := if pressOk then .press else .gnss
      match date_timestamp with
      | none =>
        { valid := false, notes := notes2 ++ [.noDateRecord], fixes := fixes2,
          press_alt_valid := some pressOk, gnss_alt_valid := some gnssOk,
          alt_source := some src }
      | some dateTs =>
        let fixes3 := setAlts (src == AltSource.press) fixes2
        let flyingFlags := compute_flight cfg dist fixes3
        match compute_takeoff_landing cfg (fixes3.zip flyingFlags) with
        | none =>
          { valid := false, notes := notes2 ++ [.didNotDetectTakeoff], fixes := fixes3,
            press_alt_valid := some pressOk, gnss_alt_valid := some gnssOk,
            alt_source := some src, flying := some flyingFlags }
        | some tl =>
          let bearings := compute_bearings bearingTo fixes3
          let ts := fixes3.map (fun f => f.rawtime + dateTs)
          let rates := compute_bearing_change_rates cfg ts bearings
          let circFlags := compute_circling cfg flyingFlags rates
          let tg := find_thermals cfg dist fixes3 circFlags tl.1.index tl.2.index
          { valid := true, notes := notes2, fixes := fixes3,
            press_alt_valid := some pressOk, gnss_alt_valid := some gnssOk,
            alt_source := some src, flying := some flyingFlags,
            takeoff_fix := some tl.1, landing_fix := some tl.2,
            thermals := some tg.1, glides := some tg.2 }

/-! ### Geo primitives (spec-modelled) -/

/-- Modelled from the spec: `earth_distance` of `libigc/lib/geo.py` is
not among the sources; §4.1 prescribes the haversine great-circle
distance in kilometres on a spherical earth of radius 6371 km, inputs
in degrees. -/
noncomputable def spec_earth_distance (lat1 lon1 lat2 lon2 : ℚ) : ℝ :=
  let phi1 : ℝ := (lat1 : ℝ) * Real.pi / 180
  let phi2 : ℝ := (lat2 : ℝ) * Real.pi / 180
  let dlam : ℝ := ((lon2 : ℝ) - (lon1 : ℝ)) * Real.pi / 180
  let h : ℝ := Real.sin ((phi2 - phi1) / 2) ^ 2 +
    Real.cos phi1 * Real.cos phi2 * Real.sin (dlam / 2) ^ 2
  2 * 6371 * Real.arcsin (Real.sqrt h)

/-- Modelled from the spec: `bearing_to` of `libigc/lib/geo.py` is not
among the sources; §4.1 prescribes the standard forward azimuth on the
sphere, in degrees normalised to `[0, 360)`.  `Complex.arg` serves as
the two-argument arctangent. -/
noncomputable def spec_bearing_to (lat1 lon1 lat2 lon2 : ℚ) : ℝ :=
  let phi1 : ℝ := (lat1 : ℝ) * Real.pi / 180
  let phi2 : ℝ := (lat2 : ℝ) * Real.pi / 180
  let dlam : ℝ := ((lon2 : ℝ) - (lon1 : ℝ)) * Real.pi / 180
  let y : ℝ := Real.sin dlam * Real.cos phi2
  let x : ℝ := Real.cos phi1 * Real.sin phi2 - Real.sin phi1 * Real.cos phi2 * Real.cos dlam
  let theta : ℝ := Complex.arg ⟨x, y⟩ * 180 / Real.pi
  if theta < 0 then theta + 360 else theta

/-- Great-circle distance between two fixes (`GNSSFix.distance_to`). -/
noncomputable def distance_to (f g : GNSSFix) : ℝ :=
  spec_earth_distance f.lat f.lon g.lat g.lon

/-- Bearing from one fix to another (`GNSSFix.bearing_to`). -/
noncomputable def bearing_to (f g : GNSSFix) : ℝ :=
  spec_bearing_to f.lat f.lon g.lat g.lon

/-! ### Fixture constructors -/

/-- Builds a fix on the prime meridian with equal pressure and GNSS
altitude, used by the concrete test flights below. -/
def mkFix (rt la pa : ℚ) (i : ℕ) : GNSSFix :=
  ⟨rt, la, 0, 'A', pa, pa, i, "", 0⟩

/-! ### C9: range of `normalize_bearing_change` -/

lemma normDown_le {α : Type} [LinearOrderedField α] [FloorRing α] (c : α) :
    normDown c ≤ 180 := by
  induction c using normDown.induct with
  | case1 c h ih => rw [normDown, dif_pos h]; exact ih
  | case2 c h => rw [normDown, dif_neg h]; linarith [not_lt.mp h]

lemma normUp_ge {α : Type} [LinearOrderedField α] [FloorRing α] (c : α) :
    -180 ≤ normUp c := by
  induction c using normUp.induct with
  | case1 c h ih => rw [normUp, dif_pos h]; exact ih
  | case2 c h => rw [normUp, dif_neg h]; linarith [not_lt.mp h]

lemma normUp_le {α : Type} [LinearOrderedField α] [FloorRing α] (c : α) :
    c ≤ 180 → normUp c ≤ 180 := by
  induction c using normUp.induct with
  | case1 c h ih =>
    intro _
    rw [normUp, dif_pos h]
    exact ih (by linarith)
  | case2 c h =>
    intro hc
    rw [normUp, dif_neg h]
    exact hc

/-- C9 (amended): for every input, the normalised bearing difference
produced by `normalize_bearing_change` lies in the closed interval
[-180, 180] (the endpoint -180 is attainable, so the interval is not
half-open as claimed). -/
theorem normalize_bearing_change_range {α : Type} [LinearOrderedField α] [FloorRing α]
    (change : α) :
    -180 ≤ normalize_bearing_change change ∧ normalize_bearing_change change ≤ 180 :=
  ⟨normUp_ge _, normUp_le _ (normDown_le _)⟩

/-- C9 counterexample: the bearing difference -180 (bearings 0 and
180, both in the `[0, 360)` range of `bearing_to`) is normalised to
-180 itself, which is not strictly greater than -180, refuting the
claimed half-open interval (-180, 180]. -/
theorem normalize_bearing_change_at_minus180 :
    normalize_bearing_change ((0 : ℚ) - 180) = -180 ∧
      ¬ (-180 < normalize_bearing_change ((0 : ℚ) - 180)) := by
  have h0 : ((0 : ℚ) - 180) = -180 := by norm_num
  have h1 : normDown ((-180) : ℚ) = -180 := by
    rw [normDown, dif_neg (by norm_num)]
  have h2 : normUp ((-180) : ℚ) = -180 := by
    rw [normUp, dif_neg (by norm_num)]
  have h3 : normalize_bearing_change ((0 : ℚ) - 180) = -180 := by
    rw [normalize_bearing_change, h0, h1, h2]
  exact ⟨h3, by rw [h3]; norm_num⟩

/-! ### C3: the reference fix of the bearing change rate -/

lemma findPrevFixFrom_spec (cfg : FlightParsingConfig) (ts : List ℚ) (curr : ℕ) :
    ∀ i j, findPrevFixFrom cfg ts curr i = some j ↔
      (1 ≤ j ∧ j ≤ i ∧
        |ts.getD curr 0 - ts.getD j 0| > cfg.min_time_for_bearing_change - 1/10000000 ∧
        ∀ k, j < k → k ≤ i →
          ¬ |ts.getD curr 0 - ts.getD k 0| > cfg.min_time_for_bearing_change - 1/10000000) := by
  intro i
  induction i with
  | zero =>
    intro j
    rw [findPrevFixFrom]
    constructor
    · intro h; exact absurd h (by simp)
    · rintro ⟨h1, h2, -, -⟩; omega
  | succ n ih =>
    intro j
    rw [findPrevFixFrom]
    split
    · rename_i hcond
      constructor
      · intro h
        rw [Option.some.injEq] at h
        subst h
        exact ⟨by omega, le_refl _, hcond, fun k hk1 hk2 => by omega⟩
      · rintro ⟨h1, h2, h3, h4⟩
        rcases Nat.lt_or_ge j (n + 1) with h5 | h5
        · exact absurd hcond (h4 (n + 1) (by omega) (by omega))
        · have : j = n + 1 := by omega
          subst this; rfl
    · rename_i hcond
      rw [ih]
      constructor
      · rintro ⟨h1, h2, h3, h4⟩
        refine ⟨h1, by omega, h3, fun k hk1 hk2 => ?_⟩
        rcases Nat.lt_or_ge k (n + 1) with h5 | h5
        · exact h4 k hk1 (by omega)
        · have : k = n + 1 := by omega
          subst this; exact hcond
      · rintro ⟨h1, h2, h3, h4⟩
        have hj : j ≤ n := by
          rcases Nat.lt_or_ge j (n + 1) with h5 | h5
          · omega
          · have : j = n + 1 := by omega
            subst this; exact absurd h3 hcond
        exact ⟨h1, hj, h3, fun k hk1 hk2 => h4 k hk1 (by omega)⟩

/-- C3 (amended): the bearing-change-rate reference fix for fix `i` is
the greatest index `j` with `1 ≤ j < i` (index 0 is never considered,
because the scan `range(curr_fix - 1, 0, -1)` stops before 0) whose
timestamp differs from `timestamp[i]` by more than
`min_time_for_bearing_change - 1e-7`; when no such `j` exists the
bearing change rate is 0. -/
theorem find_prev_fix_spec {α : Type} [LinearOrderedField α] [FloorRing α]
    (cfg : FlightParsingConfig) (ts : List ℚ) (bearings : List α) (curr j : ℕ) :
    (find_prev_fix cfg ts curr = some j ↔
      (1 ≤ j ∧ j < curr ∧
        |ts.getD curr 0 - ts.getD j 0| > cfg.min_time_for_bearing_change - 1/10000000 ∧
        ∀ k, j < k → k < curr →
          ¬ |ts.getD curr 0 - ts.getD k 0| > cfg.min_time_for_bearing_change - 1/10000000)) ∧
    (find_prev_fix cfg ts curr = none →
      (compute_bearing_change_rates cfg ts bearings).getD curr 0 = 0) := by
  constructor
  · rw [find_prev_fix, findPrevFixFrom_spec]
    constructor
    · rintro ⟨h1, h2, h3, h4⟩
      exact ⟨h1, by omega, h3, fun k hk1 hk2 => h4 k hk1 (by omega)⟩
    · rintro ⟨h1, h2, h3, h4⟩
      exact ⟨h1, by omega, h3, fun k hk1 hk2 => h4 k hk1 (by omega)⟩
  · intro hnone
    rw [compute_bearing_change_rates]
    rcases Nat.lt_or_ge curr ts.length with hc | hc
    · rw [List.getD_eq_getElem?_getD, List.getElem?_map, List.getElem?_range hc]
      simp [hnone]
    · rw [List.getD_eq_getElem?_getD, List.getElem?_eq_none (by simpa using hc)]
      rfl

/-- C3 witness: on timestamps `[0, 6, 12]` the reference fix of fix 2
is fix 1 (not fix 0), and on `[0, 10]` fix 1 has no reference fix and
its bearing change rate is 0. -/
theorem find_prev_fix_spec_witness :
    find_prev_fix defaultConfig [0, 6, 12] 2 = some 1 ∧
      (compute_bearing_change_rates defaultConfig [0, 10] [(1 : ℚ), 2]).getD 1 0 = 0 := by
  constructor
  · exact (find_prev_fix_spec defaultConfig [0, 6, 12] ([] : List ℚ) 2 1).1.mpr
      (by refine ⟨by omega, by omega, by norm_num [defaultConfig], fun k hk1 hk2 => by omega⟩)
  · exact (find_prev_fix_spec defaultConfig [0, 10] [(1 : ℚ), 2] 1 0).2 (by with_unfolding_all decide)

/-- C3 counterexample: with timestamps `[0, 10]` and bearings
`[0, 90]`, fix 0 satisfies the claimed reference condition for fix 1
(`10 - 0 > min_time_for_bearing_change - 1e-7`), so the claim demands
rate `normalise(90 - 0) / 10 = 9` at fix 1; the code considers no
reference fix there and produces rate 0. -/
theorem find_prev_fix_counterexample :
    |(10 : ℚ) - 0| > defaultConfig.min_time_for_bearing_change - 1/10000000 ∧
      find_prev_fix defaultConfig [0, 10] 1 = none ∧
      (compute_bearing_change_rates defaultConfig [0, 10] [(0 : ℚ), 90]).getD 1 0 = 0 ∧
      normalize_bearing_change ((90 : ℚ) - 0) / ((10 : ℚ) - 0) = 9 ∧ (9 : ℚ) ≠ 0 := by
  refine ⟨by norm_num [defaultConfig], by with_unfolding_all decide, ?_, ?_, by norm_num⟩
  · exact (find_prev_fix_spec defaultConfig [0, 10] [(0 : ℚ), 90] 1 0).2 (by with_unfolding_all decide)
  · have h1 : normDown ((90 : ℚ) - 0) = 90 := by
      rw [show ((90 : ℚ) - 0) = 90 by norm_num, normDown, dif_neg (by norm_num)]
    have h2 : normUp ((90 : ℚ)) = 90 := by
      rw [normUp, dif_neg (by norm_num)]
    rw [normalize_bearing_change, h1, h2]
    norm_num

/-! ### C4: the altitude envelope check skips the last fix -/

lemma altStep_pressViol (cfg : FlightParsingConfig) (acc : AltAcc) (a b : GNSSFix) :
    (altStep cfg acc a b).pressViol = acc.pressViol +
      (if a.press_alt > cfg.max_alt ∨ a.press_alt < cfg.min_alt then 1 else 0) := rfl

lemma altStep_gnssViol (cfg : FlightParsingConfig) (acc : AltAcc) (a b : GNSSFix) :
    (altStep cfg acc a b).gnssViol = acc.gnssViol +
      (if a.gnss_alt > cfg.max_alt ∨ a.gnss_alt < cfg.min_alt then 1 else 0) := rfl

lemma altStep_pressViol_le (cfg : FlightParsingConfig) (acc : AltAcc) (a b : GNSSFix) :
    acc.pressViol ≤ (altStep cfg acc a b).pressViol := by
  rw [altStep_pressViol]
  exact Nat.le_add_right _ _

lemma altStep_gnssViol_le (cfg : FlightParsingConfig) (acc : AltAcc) (a b : GNSSFix) :
    acc.gnssViol ≤ (altStep cfg acc a b).gnssViol := by
  rw [altStep_gnssViol]
  exact Nat.le_add_right _ _

lemma altStep_pressViol_pos (cfg : FlightParsingConfig) (acc : AltAcc) (a b : GNSSFix)
    (h : a.press_alt > cfg.max_alt ∨ a.press_alt < cfg.min_alt) :
    0 < (altStep cfg acc a b).pressViol := by
  rw [altStep_pressViol, if_pos h]
  omega

lemma altStep_gnssViol_pos (cfg : FlightParsingConfig) (acc : AltAcc) (a b : GNSSFix)
    (h : a.gnss_alt > cfg.max_alt ∨ a.gnss_alt < cfg.min_alt) :
    0 < (altStep cfg acc a b).gnssViol := by
  rw [altStep_gnssViol, if_pos h]
  omega

lemma altLoop_pressViol_le (cfg : FlightParsingConfig) :
    ∀ l acc, acc.pressViol ≤ (altLoop cfg l acc).pressViol := by
  intro l acc
  induction l, acc using altLoop.induct cfg with
  | case1 a b rest acc ih =>
    rw [altLoop]
    exact le_trans (altStep_pressViol_le cfg acc a b) ih
  | case2 l acc h =>
    match l, h with
    | [], _ => simp [altLoop]
    | [a], _ => simp [altLoop]
    | a :: b :: rest, h => exact absurd rfl (h a b rest)

lemma altLoop_gnssViol_le (cfg : FlightParsingConfig) :
    ∀ l acc, acc.gnssViol ≤ (altLoop cfg l acc).gnssViol := by
  intro l acc
  induction l, acc using altLoop.induct cfg with
  | case1 a b rest acc ih =>
    rw [altLoop]
    exact le_trans (altStep_gnssViol_le cfg acc a b) ih
  | case2 l acc h =>
    match l, h with
    | [], _ => simp [altLoop]
    | [a], _ => simp [altLoop]
    | a :: b :: rest, h => exact absurd rfl (h a b rest)

lemma altLoop_pressViol_pos (cfg : FlightParsingConfig) :
    ∀ l acc, (∃ f ∈ l.dropLast, f.press_alt > cfg.max_alt ∨ f.press_alt < cfg.min_alt) →
      0 < (altLoop cfg l acc).pressViol := by
  intro l acc
  induction l, acc using altLoop.induct cfg with
  | case1 a b rest acc ih =>
    rintro ⟨f, hf, hviol⟩
    rw [List.dropLast_cons₂] at hf
    rw [altLoop]
    rcases List.mem_cons.mp hf with hf | hf
    · subst hf
      exact lt_of_lt_of_le (altStep_pressViol_pos cfg acc f b hviol)
        (altLoop_pressViol_le cfg _ _)
    · exact ih ⟨f, hf, hviol⟩
  | case2 l acc h =>
    rintro ⟨f, hf, -⟩
    exfalso
    match l, h with
    | [], _ => simp at hf
    | [a], h => simp at hf
    | a :: b :: rest, h => exact (h a b rest) rfl

lemma altLoop_gnssViol_pos (cfg : FlightParsingConfig) :
    ∀ l acc, (∃ f ∈ l.dropLast, f.gnss_alt > cfg.max_alt ∨ f.gnss_alt < cfg.min_alt) →
      0 < (altLoop cfg l acc).gnssViol := by
  intro l acc
  induction l, acc using altLoop.induct cfg with
  | case1 a b rest acc ih =>
    rintro ⟨f, hf, hviol⟩
    rw [List.dropLast_cons₂] at hf
    rw [altLoop]
    rcases List.mem_cons.mp hf with hf | hf
    · subst hf
      exact lt_of_lt_of_le (altStep_gnssViol_pos cfg acc f b hviol)
        (altLoop_gnssViol_le cfg _ _)
    · exact ih ⟨f, hf, hviol⟩
  | case2 l acc h =>
    rintro ⟨f, hf, -⟩
    exfalso
    match l, h with
    | [], _ => simp at hf
    | [a], h => simp at hf
    | a :: b :: rest, h => exact (h a b rest) rfl

lemma check_altitudes_press_no_viol (cfg : FlightParsingConfig) (fixes : List GNSSFix)
    (h : (check_altitudes cfg fixes).1 = true) :
    ¬ ∃ f ∈ fixes.dropLast, f.press_alt > cfg.max_alt ∨ f.press_alt < cfg.min_alt := by
  intro hex
  have hpos := altLoop_pressViol_pos cfg fixes ⟨0, 0, 0, 0, 0, 0⟩ hex
  rw [check_altitudes] at h
  simp only [Bool.and_eq_true, List.isEmpty_eq_true] at h
  rcases h with ⟨-, h3⟩
  rw [if_pos hpos] at h3
  exact absurd h3 (by simp)

lemma check_altitudes_gnss_no_viol (cfg : FlightParsingConfig) (fixes : List GNSSFix)
    (h : (check_altitudes cfg fixes).2.1 = true) :
    ¬ ∃ f ∈ fixes.dropLast, f.gnss_alt > cfg.max_alt ∨ f.gnss_alt < cfg.min_alt := by
  intro hex
  have hpos := altLoop_gnssViol_pos cfg fixes ⟨0, 0, 0, 0, 0, 0⟩ hex
  rw [check_altitudes] at h
  simp only [Bool.and_eq_true, List.isEmpty_eq_true] at h
  rcases h with ⟨-, h3⟩
  rw [if_pos hpos] at h3
  exact absurd h3 (by simp)

/-- C4 (amended): the altitude envelope test runs over every fix of
the flight except the last one (the loop ranges over
`range(len(fixes) - 1)`), and a sensor with an altitude outside
`[min_alt, max_alt]` on any of those fixes is marked invalid;
equivalently, a sensor reported valid has every non-last fix inside
the envelope.  The last fix is exempt. -/
theorem check_altitudes_envelope (cfg : FlightParsingConfig) (fixes : List GNSSFix) :
    ((check_altitudes cfg fixes).1 = true →
      ∀ f ∈ fixes.dropLast, cfg.min_alt ≤ f.press_alt ∧ f.press_alt ≤ cfg.max_alt) ∧
    ((check_altitudes cfg fixes).2.1 = true →
      ∀ f ∈ fixes.dropLast, cfg.min_alt ≤ f.gnss_alt ∧ f.gnss_alt ≤ cfg.max_alt) := by
  constructor
  · intro h f hf
    have := check_altitudes_press_no_viol cfg fixes h
    push_neg at this
    have h2 := this f hf
    exact ⟨h2.2, h2.1⟩
  · intro h f hf
    have := check_altitudes_gnss_no_viol cfg fixes h
    push_neg at this
    have h2 := this f hf
    exact ⟨h2.2, h2.1⟩

/-- C4 witness: on a three-fix flight whose sensors pass the check,
the theorem yields the envelope bounds for the first fix. -/
theorem check_altitudes_envelope_witness :
    defaultConfig.min_alt ≤ (mkFix 0 0 0 0).press_alt ∧
      (mkFix 0 0 0 0).press_alt ≤ defaultConfig.max_alt :=
  (check_altitudes_envelope defaultConfig
      [mkFix 0 0 0 0, mkFix 1 0 1 1, mkFix 2 0 2 2]).1
    (by with_unfolding_all decide) (mkFix 0 0 0 0) (by simp)

/-- C4 counterexample: a flight whose last fix has pressure altitude
20000 (far above `max_alt = 10000`) still gets a valid pressure
sensor, because the envelope loop never tests the last fix; this
refutes the claim that every fix including the last is tested. -/
theorem check_altitudes_last_fix_exempt :
    (check_altitudes defaultConfig
        [mkFix 0 0 0 0, mkFix 1 0 1 1, mkFix 2 0 20000 2]).1 = true ∧
      defaultConfig.max_alt < (mkFix 2 0 20000 2).press_alt := by
  constructor
  · with_unfolding_all decide
  · norm_num [mkFix, defaultConfig]

/-! ### C6: the landing duration filter -/

lemma findNextFlying_append_zeros :
    ∀ (run post : List (ℚ × ℕ)), (∀ p ∈ run, p.2 = 0) →
      findNextFlyingRawtime (run ++ post) = findNextFlyingRawtime post := by
  intro run
  induction run with
  | nil => intro post _; rfl
  | cons p rest ih =>
    intro post h
    obtain ⟨rt, o⟩ := p
    have hp : o = 0 := h (rt, o) (List.mem_cons_self _ _)
    subst hp
    rw [List.cons_append, findNextFlyingRawtime, if_neg (by omega)]
    exact ih post (fun q hq => h q (List.mem_cons_of_mem _ hq))

lemma landingFilter_apply_run (ml : ℚ) :
    ∀ (run post : List (ℚ × ℕ)), (∀ p ∈ run, p.2 = 0) →
      landingFilterLoop ml false true (run ++ post) =
        List.replicate run.length false ++ landingFilterLoop ml false true post := by
  intro run
  induction run with
  | nil => intro post _; rfl
  | cons p rest ih =>
    intro post h
    obtain ⟨rt, o⟩ := p
    have hp : o = 0 := h (rt, o) (List.mem_cons_self _ _)
    subst hp
    rw [List.cons_append, landingFilterLoop, if_neg (by omega), if_pos rfl,
      List.length_cons, List.replicate_succ, List.cons_append]
    rw [ih post (fun q hq => h q (List.mem_cons_of_mem _ hq))]

lemma landingFilter_ignore_run (ml : ℚ) :
    ∀ (run post : List (ℚ × ℕ)), (∀ p ∈ run, p.2 = 0) →
      landingFilterLoop ml true false (run ++ post) =
        List.replicate run.length true ++ landingFilterLoop ml true false post := by
  intro run
  induction run with
  | nil => intro post _; rfl
  | cons p rest ih =>
    intro post h
    obtain ⟨rt, o⟩ := p
    have hp : o = 0 := h (rt, o) (List.mem_cons_self _ _)
    subst hp
    rw [List.cons_append, landingFilterLoop, if_neg (by omega),
      if_neg (by exact Bool.false_ne_true), if_pos rfl,
      List.length_cons, List.replicate_succ, List.cons_append]
    rw [ih post (fun q hq => h q (List.mem_cons_of_mem _ hq))]

/-- C6: a Viterbi-decoded standing run (its pairs carry decoded output
0) entered with clean filter state is labelled entirely "not flying"
when the next decoded-flying fix is at least `min_landing_time` seconds
after the run's first fix, or when no such fix exists (tail of the
log); otherwise every fix of the run is overridden to "flying".  The
decision holds uniformly across the run. -/
theorem landing_filter_run_spec (ml : ℚ) (run post : List (ℚ × ℕ))
    (hne : run ≠ []) (hrun : ∀ p ∈ run, p.2 = 0) :
    landingFilterLoop ml false false (run ++ post) =
      (match findNextFlyingRawtime post with
       | none => List.replicate run.length false ++ landingFilterLoop ml false true post
       | some rtNext =>
         if rtNext - (run.headD (0, 0)).1 ≥ ml
         then List.replicate run.length false ++ landingFilterLoop ml false true post
         else List.replicate run.length true ++ landingFilterLoop ml true false post) := by
  obtain ⟨⟨rt, o⟩, rtail, rfl⟩ := List.exists_cons_of_ne_nil hne
  have ho : o = 0 := hrun (rt, o) (List.mem_cons_self _ _)
  subst ho
  have hrtail : ∀ p ∈ rtail, p.2 = 0 := fun q hq => hrun q (List.mem_cons_of_mem _ hq)
  rw [List.cons_append, landingFilterLoop, if_neg (by omega),
    if_neg (by exact Bool.false_ne_true), if_neg (by exact Bool.false_ne_true),
    findNextFlying_append_zeros rtail post hrtail]
  cases hfind : findNextFlyingRawtime post with
  | none =>
    simp only []
    rw [landingFilter_apply_run ml rtail post hrtail]
    simp [List.replicate_succ]
  | some rtNext =>
    simp only [List.headD_cons, List.length_cons, List.replicate_succ]
    by_cases hgap : rtNext - rt ≥ ml
    · rw [if_pos hgap, if_pos hgap, landingFilter_apply_run ml rtail post hrtail]
      simp
    · rw [if_neg hgap, if_neg hgap, landingFilter_ignore_run ml rtail post hrtail]
      simp

/-- C6 witness: a two-fix standing run 100 seconds before the next
flying fix (less than the 300 second default) is overridden to flying. -/
theorem landing_filter_run_spec_witness :
    landingFilterLoop 300 false false ([((0 : ℚ), 0), (1, 0)] ++ [(100, 1)]) =
      [true, true, true] := by
  rw [landing_filter_run_spec 300 [((0 : ℚ), 0), (1, 0)] [(100, 1)]
    (by simp) (by decide)]
  with_unfolding_all decide

/-! ### C7: UTC midnight rollover -/

/-- The two-fix midnight-crossing log of spec scenario S2. -/
def cexMidnightFixes : List GNSSFix := [mkFix 86390 0 0 0, mkFix 10 0 1 1]

lemma rawtimeLoop_fst_eq (cfg : FlightParsingConfig) :
    ∀ (l : List GNSSFix) (prev offs : ℚ) (days viol : ℕ),
      (rawtimeLoop cfg prev offs days viol l).1 = (rawtimeLoop cfg prev offs 0 0 l).1 := by
  intro l
  induction l with
  | nil => intros; rfl
  | cons f rest ih =>
    intro prev offs days viol
    rw [rawtimeLoop, rawtimeLoop]
    by_cases hsw : prev > f.rawtime + offs ∧ f.rawtime + offs + 86400 < prev + 200
    · rw [decide_eq_true hsw]
      simp only [if_true, List.cons.injEq, true_and]
      exact (ih _ _ _ _).trans (ih _ _ _ _).symm
    · rw [decide_eq_false hsw]
      simp only [Bool.false_eq_true, if_false, List.cons.injEq, true_and]
      exact (ih _ _ _ _).trans (ih _ _ _ _).symm

lemma rawtimeLoop_offset (cfg : FlightParsingConfig) :
    ∀ (rest : List GNSSFix) (prev offs : ℚ) (days viol : ℕ) (k : ℕ), k < rest.length →
      ∃ m : ℕ, ((rawtimeLoop cfg prev offs days viol rest).1.map GNSSFix.rawtime).getD k 0
        = (rest.map GNSSFix.rawtime).getD k 0 + offs + 86400 * m := by
  intro rest
  induction rest with
  | nil => intro prev offs days viol k hk; simp at hk
  | cons f rest ih =>
    intro prev offs days viol k hk
    rw [rawtimeLoop]
    by_cases hsw : prev > f.rawtime + offs ∧ f.rawtime + offs + 86400 < prev + 200
    · rw [decide_eq_true hsw]
      cases k with
      | zero => exact ⟨1, by simp⟩
      | succ k =>
        simp only [if_true, List.map_cons, List.getD_cons_succ,
          rawtimeLoop_fst_eq cfg rest]
        obtain ⟨m, hm⟩ := ih (f.rawtime + offs + 86400) (offs + 86400) 0 0 k
          (by simpa using hk)
        rw [rawtimeLoop_fst_eq cfg rest] at hm
        exact ⟨m + 1, by rw [hm]; push_cast; ring⟩
    · rw [decide_eq_false hsw]
      cases k with
      | zero => exact ⟨0, by simp⟩
      | succ k =>
        simp only [Bool.false_eq_true, if_false, List.map_cons,
          List.getD_cons_succ, rawtimeLoop_fst_eq cfg rest]
        obtain ⟨m, hm⟩ := ih (f.rawtime + offs) offs 0 0 k (by simpa using hk)
        rw [rawtimeLoop_fst_eq cfg rest] at hm
        exact ⟨m, hm⟩

/-- C7: in the time sanity pass, whenever the offset-corrected rawtime
of a fix is smaller than its predecessor's corrected rawtime and
adding 86400 seconds lands within 200 seconds of (or before) the
predecessor, 86400 seconds are added to that fix and the offset
carried to all subsequent fixes grows by 86400 (each later fix
receives the current offset plus a whole number of further days);
without the condition the fix keeps its current offset.  On the
concrete log with rawtimes 86390 and 10 the second fix is corrected to
86410 and one midnight crossing is counted. -/
theorem midnight_rollover_spec :
    ((check_fix_rawtime defaultConfig cexMidnightFixes).1.map GNSSFix.rawtime
        = [86390, 86410]
      ∧ (check_fix_rawtime defaultConfig cexMidnightFixes).2.1 = 1) ∧
    (∀ (cfg : FlightParsingConfig) (prev offs : ℚ) (days viol : ℕ)
        (f : GNSSFix) (rest : List GNSSFix),
      prev > f.rawtime + offs → f.rawtime + offs + 86400 < prev + 200 →
        ((rawtimeLoop cfg prev offs days viol (f :: rest)).1.map GNSSFix.rawtime).headD 0
            = f.rawtime + offs + 86400 ∧
          ∀ k, k < rest.length → ∃ m : ℕ,
            ((rawtimeLoop cfg prev offs days viol (f :: rest)).1.map GNSSFix.rawtime).getD (k + 1) 0
              = (rest.map GNSSFix.rawtime).getD k 0 + (offs + 86400) + 86400 * m) ∧
    (∀ (cfg : FlightParsingConfig) (prev offs : ℚ) (days viol : ℕ)
        (f : GNSSFix) (rest : List GNSSFix),
      ¬ (prev > f.rawtime + offs ∧ f.rawtime + offs + 86400 < prev + 200) →
        ((rawtimeLoop cfg prev offs days viol (f :: rest)).1.map GNSSFix.rawtime).headD 0
            = f.rawtime + offs ∧
          ∀ k, k < rest.length → ∃ m : ℕ,
            ((rawtimeLoop cfg prev offs days viol (f :: rest)).1.map GNSSFix.rawtime).getD (k + 1) 0
              = (rest.map GNSSFix.rawtime).getD k 0 + offs + 86400 * m) := by
  refine ⟨⟨?_, ?_⟩, ?_, ?_⟩
  · simp only [cexMidnightFixes, check_fix_rawtime, rawtimeLoop, mkFix]
    rw [decide_eq_true (show (86390 : ℚ) > 10 + 0 ∧ (10 : ℚ) + 0 + 86400 < 86390 + 200
      by norm_num)]
    norm_num
  · simp only [cexMidnightFixes, check_fix_rawtime, rawtimeLoop, mkFix]
    rw [decide_eq_true (show (86390 : ℚ) > 10 + 0 ∧ (10 : ℚ) + 0 + 86400 < 86390 + 200
      by norm_num)]
    norm_num
  · intro cfg prev offs days viol f rest h1 h2
    constructor
    · rw [rawtimeLoop, decide_eq_true ⟨h1, h2⟩]
      simp
    · intro k hk
      rw [rawtimeLoop, decide_eq_true ⟨h1, h2⟩]
      simp only [if_true, List.map_cons, List.getD_cons_succ,
        rawtimeLoop_fst_eq cfg rest]
      obtain ⟨m, hm⟩ := rawtimeLoop_offset cfg rest (f.rawtime + offs + 86400)
        (offs + 86400) 0 0 k hk
      rw [rawtimeLoop_fst_eq cfg rest] at hm
      exact ⟨m, hm⟩
  · intro cfg prev offs days viol f rest hn
    constructor
    · rw [rawtimeLoop, decide_eq_false hn]
      simp
    · intro k hk
      rw [rawtimeLoop, decide_eq_false hn]
      simp only [Bool.false_eq_true, if_false, List.map_cons,
        List.getD_cons_succ, rawtimeLoop_fst_eq cfg rest]
      obtain ⟨m, hm⟩ := rawtimeLoop_offset cfg rest (f.rawtime + offs)
        offs 0 0 k hk
      rw [rawtimeLoop_fst_eq cfg rest] at hm
      exact ⟨m, hm⟩

/-- C7 witness: the switch branch of the theorem applied to the
concrete midnight pair, and the plain branch applied to an in-order
pair. -/
theorem midnight_rollover_spec_witness :
    ((rawtimeLoop defaultConfig 86390 0 0 0 [mkFix 10 0 1 1]).1.map GNSSFix.rawtime).headD 0
        = (mkFix 10 0 1 1).rawtime + 0 + 86400 ∧
      ((rawtimeLoop defaultConfig 5 0 0 0 [mkFix 7 0 1 1]).1.map GNSSFix.rawtime).headD 0
        = (mkFix 7 0 1 1).rawtime + 0 := by
  constructor
  · exact (midnight_rollover_spec.2.1 defaultConfig 86390 0 0 0 (mkFix 10 0 1 1) []
      (by norm_num [mkFix]) (by norm_num [mkFix])).1
  · exact (midnight_rollover_spec.2.2 defaultConfig 5 0 0 0 (mkFix 7 0 1 1) []
      (by norm_num [mkFix])).1

/-! ### C8: minimum thermal duration -/

lemma findThermalsLoop_durations {α : Type} [LinearOrderedField α]
    (cfg : FlightParsingConfig) (dist : GNSSFix → GNSSFix → α) :
    ∀ (l : List (GNSSFix × Bool)) (c g : Bool) (ff fgf lgf : GNSSFix) (da dsc : α),
      ∀ t ∈ (findThermalsLoop cfg dist l c g ff fgf lgf da dsc).1,
        cfg.min_time_for_thermal - 1/100000 < t.time_change := by
  intro l c g ff fgf lgf da dsc
  induction l, c, g, ff, fgf, lgf, da, dsc using findThermalsLoop.induct cfg dist with
  | case1 c ff fgf lgf da dsc =>
    intro t ht
    simp [findThermalsLoop] at ht
  | case2 c g ff fgf lgf da dsc hg =>
    intro t ht
    simp [findThermalsLoop, hg] at ht
  | case3 fix circ rest c g ff fgf lgf da dsc sc ec c2 ff2 dsc2 th acc g2 st ih =>
    intro t ht
    unfold_let sc ec c2 ff2 dsc2 th acc g2 st at ih
    simp only [findThermalsLoop] at ht
    rw [List.mem_append] at ht
    rcases ht with ht | ht
    · split at ht
      · rename_i hacc
        rw [Bool.and_eq_true] at hacc
        rw [List.mem_singleton] at ht
        subst ht
        exact of_decide_eq_true hacc.2
      · simp at ht
    · exact ih t ht

lemma findThermalsLoop_length {α : Type} [LinearOrderedField α]
    (cfg : FlightParsingConfig) (dist : GNSSFix → GNSSFix → α) :
    ∀ (l : List (GNSSFix × Bool)) (c g : Bool) (ff fgf lgf : GNSSFix) (da dsc : α),
      (findThermalsLoop cfg dist l c g ff fgf lgf da dsc).1.length
          ≤ (findThermalsLoop cfg dist l c g ff fgf lgf da dsc).2.length ∧
        (findThermalsLoop cfg dist l c g ff fgf lgf da dsc).2.length
          ≤ (findThermalsLoop cfg dist l c g ff fgf lgf da dsc).1.length + 1 := by
  intro l c g ff fgf lgf da dsc
  induction l, c, g, ff, fgf, lgf, da, dsc using findThermalsLoop.induct cfg dist with
  | case1 c ff fgf lgf da dsc => simp [findThermalsLoop]
  | case2 c g ff fgf lgf da dsc hg => simp [findThermalsLoop, hg]
  | case3 fix circ rest c g ff fgf lgf da dsc sc ec c2 ff2 dsc2 th acc g2 st ih =>
    obtain ⟨ih1, ih2⟩ := ih
    unfold_let sc ec c2 ff2 dsc2 th acc g2 st at ih1 ih2
    simp only [findThermalsLoop, List.length_append, apply_ite List.length,
      List.length_singleton, List.length_nil]
    omega

lemma find_thermals_spec {α : Type} [LinearOrderedField α]
    (cfg : FlightParsingConfig) (dist : GNSSFix → GNSSFix → α) (fixes : List GNSSFix)
    (circFlags : List Bool) (a b : ℕ) :
    ((find_thermals cfg dist fixes circFlags a b).1.all
        (fun t => decide (cfg.min_time_for_thermal - 1/100000 < t.time_change)) = true) ∧
      (find_thermals cfg dist fixes circFlags a b).1.length
          ≤ (find_thermals cfg dist fixes circFlags a b).2.length ∧
        (find_thermals cfg dist fixes circFlags a b).2.length
          ≤ (find_thermals cfg dist fixes circFlags a b).1.length + 1 := by
  refine ⟨?_, ?_⟩
  · rw [List.all_eq_true]
    intro t ht
    simp only [find_thermals] at ht
    exact decide_eq_true (findThermalsLoop_durations cfg dist _ _ _ _ _ _ _ _ t ht)
  · simp only [find_thermals]
    exact findThermalsLoop_length cfg dist _ _ _ _ _ _ _ _

/-- C8: every thermal the engine appends to `flight.thermals`
satisfies `exit.rawtime - enter.rawtime > min_time_for_thermal - 1e-5`
(a rejected candidate appends nothing), and a rejected candidate also
closes no glide: glides and thermals are appended in lockstep, so the
number of glides stays between the number of thermals and that number
plus one (the possible trailing glide). -/
theorem thermal_min_duration {α : Type} [LinearOrderedField α] [FloorRing α]
    (cfg : FlightParsingConfig) (dist bearingTo : GNSSFix → GNSSFix → α)
    (fixes : List GNSSFix) (dateTs : Option ℚ) :
    (((flightInit cfg dist bearingTo fixes dateTs).thermals.getD []).all
        (fun t => decide (cfg.min_time_for_thermal - 1/100000 < t.time_change)) = true) ∧
      ((flightInit cfg dist bearingTo fixes dateTs).thermals.getD []).length
          ≤ ((flightInit cfg dist bearingTo fixes dateTs).glides.getD []).length ∧
        ((flightInit cfg dist bearingTo fixes dateTs).glides.getD []).length
          ≤ ((flightInit cfg dist bearingTo fixes dateTs).thermals.getD []).length + 1 := by
  simp only [flightInit]
  split_ifs <;> try simp
  all_goals
    cases dateTs with
    | none => simp
    | some d =>
      simp only []
      split
      · simp
      · rename_i tl heq
        simp only [Option.getD_some]
        refine ⟨?_, ?_, ?_⟩
        · intro t ht
          simp only [find_thermals] at ht
          simpa using findThermalsLoop_durations cfg dist _ _ _ _ _ _ _ _ t ht
        · simpa only [find_thermals] using
            (findThermalsLoop_length cfg dist _ _ _ _ _ _ _ _).1
        · simpa only [find_thermals] using
            (findThermalsLoop_length cfg dist _ _ _ _ _ _ _ _).2
/-! ### C10: `Glide.speed` has no zero-duration guard -/

/-- Configuration with a short thermal threshold, as allowed by the
`config_class` parameter of the engine. -/
def cfgThermalShort : FlightParsingConfig :=
  { defaultConfig with min_time_for_thermal := 2 }

/-- Five fixes at one position whose circling flags end at the final
fix, so the accepted thermal closes there and a fresh glide opens on
the final fix itself. -/
def cex10Fixes : List GNSSFix :=
  [mkFix 0 0 0 0, mkFix 1 0 0 1, mkFix 2 0 0 2, mkFix 3 0 0 3, mkFix 4 0 0 4]

/-- Circling flags for `cex10Fixes`. -/
def cex10Circ : List Bool := [false, true, true, true, false]

lemma cex10_find_thermals {α : Type} [LinearOrderedField α]
    (dist : GNSSFix → GNSSFix → α) :
    find_thermals cfgThermalShort dist cex10Fixes cex10Circ 0 4 =
      ([⟨mkFix 1 0 0 1, mkFix 4 0 0 4⟩],
       [⟨mkFix 0 0 0 0, mkFix 1 0 0 1, 0⟩, ⟨mkFix 4 0 0 4, mkFix 4 0 0 4, 0⟩]) := by
  with_unfolding_all rfl

/-- C10: `Glide.speed` divides by `time_change()/3600` with no guard,
so it fails (modelled as `none`) exactly on zero-duration glides,
unlike `Glide.glide_ratio` and `Thermal.vertical_velocity`, which
return 0 below a 1e-7 threshold; and the thermal extraction can emit
such a glide: when the final fix of the flight slice closes an
accepted thermal, the trailing glide has equal enter and exit fixes
and zero duration, whatever the distance function computes. -/
theorem glide_speed_unguarded :
    (∀ (g : Glide ℚ), g.time_change = 0 → g.speed = none) ∧
      (∀ (g : Glide ℚ), |g.alt_change| < 1/10000000 → g.glideLD = 0) ∧
      (∀ (t : Thermal), |t.time_change| < 1/10000000 → t.vertical_velocity = 0) ∧
      (∀ dist : GNSSFix → GNSSFix → ℚ,
        ∃ g ∈ (find_thermals cfgThermalShort dist cex10Fixes cex10Circ 0 4).2,
          g.enter_fix = g.exit_fix ∧ g.time_change = 0 ∧ g.speed = none) := by
  refine ⟨?_, ?_, ?_, ?_⟩
  · intro g hg
    rw [Glide.speed, if_pos hg]
  · intro g hg
    rw [Glide.glideLD, if_pos hg]
  · intro t ht
    rw [Thermal.vertical_velocity, if_pos ht]
  · intro dist
    refine ⟨⟨mkFix 4 0 0 4, mkFix 4 0 0 4, 0⟩, ?_, rfl, ?_, ?_⟩
    · rw [cex10_find_thermals dist]
      simp
    · rw [Glide.time_change]
      norm_num
    · rw [Glide.speed, if_pos]
      rw [Glide.time_change]
      norm_num

/-- C10 witness: the guards at work on concrete values: a glide of
zero duration has no speed, a level glide and an instantaneous thermal
get ratio and vertical velocity 0, and with the zero distance function
the degenerate trailing glide of `cex10Fixes` is exhibited. -/
theorem glide_speed_unguarded_witness :
    (Glide.speed ⟨mkFix 4 0 0 4, mkFix 4 0 0 4, (5 : ℚ)⟩ = none) ∧
      (Glide.glideLD ⟨mkFix 0 0 0 0, mkFix 1 0 0 1, (5 : ℚ)⟩ = 0) ∧
      (Thermal.vertical_velocity ⟨mkFix 0 0 0 0, mkFix 0 0 1 5⟩ = 0) ∧
      ∃ g ∈ (find_thermals cfgThermalShort (fun _ _ => (0 : ℚ)) cex10Fixes cex10Circ 0 4).2,
        g.enter_fix = g.exit_fix ∧ g.time_change = 0 ∧ g.speed = none := by
  refine ⟨?_, ?_, ?_, glide_speed_unguarded.2.2.2 (fun _ _ => (0 : ℚ))⟩
  · exact glide_speed_unguarded.1 _ (by rw [Glide.time_change]; norm_num [mkFix])
  · exact glide_speed_unguarded.2.1 _ (by rw [Glide.alt_change]; norm_num [mkFix])
  · exact glide_speed_unguarded.2.2.1 _ (by rw [Thermal.time_change]; norm_num [mkFix])


/-! ### Digit-string toolkit for the B-record round-trip -/

lemma digitVal_digitChar (k : ℕ) (h : k < 10) : digitVal (digitChar k) = k := by
  interval_cases k <;> decide

lemma isDigit_digitChar (k : ℕ) (h : k < 10) : (digitChar k).isDigit = true := by
  interval_cases k <;> decide

lemma char_toNat_of_isDigit (c : Char) (h : c.isDigit = true) :
    48 ≤ c.toNat ∧ c.toNat ≤ 57 := by
  have h' : (48 : UInt32) ≤ c.val ∧ c.val ≤ 57 := by
    simpa [Char.isDigit, Char.le_def] using h
  constructor
  · exact UInt32.le_def.mp h'.1
  · exact UInt32.le_def.mp h'.2

lemma digitVal_lt_10 (c : Char) (h : c.isDigit = true) : digitVal c < 10 := by
  have h' := (char_toNat_of_isDigit c h).2
  simp only [digitVal, show '0'.toNat = 48 from rfl]
  omega

lemma digitChar_digitVal (c : Char) (h : c.isDigit = true) : digitChar (digitVal c) = c := by
  have h1 : 48 ≤ c.toNat := (char_toNat_of_isDigit c h).1
  have h2 : 48 + (c.toNat - 48) = c.toNat := by omega
  rw [digitChar, digitVal, show '0'.toNat = 48 from rfl, h2, Char.ofNat_toNat]

lemma beq_dash_eq_false_of_isDigit (c : Char) (h : c.isDigit = true) : (c == '-') = false := by
  rw [beq_eq_false_iff_ne]
  intro hc
  subst hc
  simp at h

lemma natDigits_lt10 (n : ℕ) (h : n < 10) : natDigits n = [digitChar n] := by
  rw [natDigits, dif_pos h]

lemma natDigits2 (n : ℕ) (h1 : 10 ≤ n) (h2 : n < 100) :
    natDigits n = [digitChar (n / 10), digitChar (n % 10)] := by
  rw [natDigits, dif_neg (by omega), natDigits_lt10 (n / 10) (by omega)]
  rfl

lemma natDigits3 (n : ℕ) (h1 : 100 ≤ n) (h2 : n < 1000) :
    natDigits n = [digitChar (n / 100), digitChar (n / 10 % 10), digitChar (n % 10)] := by
  rw [natDigits, dif_neg (by omega), natDigits2 (n / 10) (by omega) (by omega)]
  rw [Nat.div_div_eq_div_mul]
  rfl

lemma natDigits4 (n : ℕ) (h1 : 1000 ≤ n) (h2 : n < 10000) :
    natDigits n = [digitChar (n / 1000), digitChar (n / 100 % 10),
      digitChar (n / 10 % 10), digitChar (n % 10)] := by
  rw [natDigits, dif_neg (by omega), natDigits3 (n / 10) (by omega) (by omega)]
  rw [Nat.div_div_eq_div_mul, Nat.div_div_eq_div_mul]
  norm_num

lemma natDigits5 (n : ℕ) (h1 : 10000 ≤ n) (h2 : n < 100000) :
    natDigits n = [digitChar (n / 10000), digitChar (n / 1000 % 10),
      digitChar (n / 100 % 10), digitChar (n / 10 % 10), digitChar (n % 10)] := by
  rw [natDigits, dif_neg (by omega), natDigits4 (n / 10) (by omega) (by omega)]
  rw [Nat.div_div_eq_div_mul, Nat.div_div_eq_div_mul, Nat.div_div_eq_div_mul]
  norm_num


lemma padNat2_eq (n : ℕ) (h : n < 100) :
    padNat 2 n = [digitChar (n / 10), digitChar (n % 10)] := by
  by_cases h1 : n < 10
  · have e1 : n / 10 = 0 := by omega
    have e2 : n % 10 = n := by omega
    simp only [padNat, natDigits_lt10 n h1, e1, e2]
    rfl
  · simp only [padNat, natDigits2 n (by omega) h]
    rfl

lemma padNat3_eq (n : ℕ) (h : n < 1000) :
    padNat 3 n = [digitChar (n / 100), digitChar (n / 10 % 10), digitChar (n % 10)] := by
  by_cases h1 : n < 10
  · have e1 : n / 100 = 0 := by omega
    have e2 : n / 10 % 10 = 0 := by omega
    have e3 : n % 10 = n := by omega
    simp only [padNat, natDigits_lt10 n h1, e1, e2, e3]
    rfl
  · by_cases h2 : n < 100
    · have e1 : n / 100 = 0 := by omega
      have e2 : n / 10 % 10 = n / 10 := by omega
      simp only [padNat, natDigits2 n (by omega) h2, e1, e2]
      rfl
    · simp only [padNat, natDigits3 n (by omega) h]
      rfl

lemma padNat4_eq (n : ℕ) (h : n < 10000) :
    padNat 4 n = [digitChar (n / 1000), digitChar (n / 100 % 10),
      digitChar (n / 10 % 10), digitChar (n % 10)] := by
  by_cases h1 : n < 10
  · have e1 : n / 1000 = 0 := by omega
    have e2 : n / 100 % 10 = 0 := by omega
    have e3 : n / 10 % 10 = 0 := by omega
    have e4 : n % 10 = n := by omega
    simp only [padNat, natDigits_lt10 n h1, e1, e2, e3, e4]
    rfl
  · by_cases h2 : n < 100
    · have e1 : n / 1000 = 0 := by omega
      have e2 : n / 100 % 10 = 0 := by omega
      have e3 : n / 10 % 10 = n / 10 := by omega
      simp only [padNat, natDigits2 n (by omega) h2, e1, e2, e3]
      rfl
    · by_cases h3 : n < 1000
      · have e1 : n / 1000 = 0 := by omega
        have e2 : n / 100 % 10 = n / 100 := by omega
        simp only [padNat, natDigits3 n (by omega) h3, e1, e2]
        rfl
      · simp only [padNat, natDigits4 n (by omega) h]
        rfl

lemma padNat5_eq (n : ℕ) (h : n < 100000) :
    padNat 5 n = [digitChar (n / 10000), digitChar (n / 1000 % 10),
      digitChar (n / 100 % 10), digitChar (n / 10 % 10), digitChar (n % 10)] := by
  by_cases h1 : n < 10
  · have e1 : n / 10000 = 0 := by omega
    have e2 : n / 1000 % 10 = 0 := by omega
    have e3 : n / 100 % 10 = 0 := by omega
    have e4 : n / 10 % 10 = 0 := by omega
    have e5 : n % 10 = n := by omega
    simp only [padNat, natDigits_lt10 n h1, e1, e2, e3, e4, e5]
    rfl
  · by_cases h2 : n < 100
    · have e1 : n / 10000 = 0 := by omega
      have e2 : n / 1000 % 10 = 0 := by omega
      have e3 : n / 100 % 10 = 0 := by omega
      have e4 : n / 10 % 10 = n / 10 := by omega
      simp only [padNat, natDigits2 n (by omega) h2, e1, e2, e3, e4]
      rfl
    · by_cases h3 : n < 1000
      · have e1 : n / 10000 = 0 := by omega
        have e2 : n / 1000 % 10 = 0 := by omega
        have e3 : n / 100 % 10 = n / 100 := by omega
        simp only [padNat, natDigits3 n (by omega) h3, e1, e2, e3]
        rfl
      · by_cases h4 : n < 10000
        · have e1 : n / 10000 = 0 := by omega
          have e2 : n / 1000 % 10 = n / 1000 := by omega
          simp only [padNat, natDigits4 n (by omega) h4, e1, e2]
          rfl
        · simp only [padNat, natDigits5 n (by omega) h]
          rfl

lemma parse2_inv (cs : List Char) (n : ℕ) (h : parse2 cs = some n) :
    cs = padNat 2 n ∧ n < 100 := by
  match cs with
  | [] => simp [parse2] at h
  | [a] => simp [parse2] at h
  | [a, b] =>
    simp only [parse2] at h
    split at h
    · rename_i hd
      rw [Bool.and_eq_true] at hd
      have ha := digitVal_lt_10 a hd.1
      have hb := digitVal_lt_10 b hd.2
      have hn : 10 * digitVal a + digitVal b = n := Option.some.inj h
      have e1 : n / 10 = digitVal a := by omega
      have e2 : n % 10 = digitVal b := by omega
      refine ⟨?_, by omega⟩
      rw [padNat2_eq n (by omega), e1, e2,
        digitChar_digitVal a hd.1, digitChar_digitVal b hd.2]
    · exact absurd h (by simp)
  | a :: b :: c :: t => simp [parse2] at h

lemma parse3_inv (cs : List Char) (n : ℕ) (h : parse3 cs = some n) :
    cs = padNat 3 n ∧ n < 1000 := by
  match cs with
  | [] => simp [parse3] at h
  | [a] => simp [parse3] at h
  | [a, b] => simp [parse3] at h
  | [a, b, c] =>
    simp only [parse3] at h
    split at h
    · rename_i hd
      rw [Bool.and_eq_true, Bool.and_eq_true] at hd
      have ha := digitVal_lt_10 a hd.1.1
      have hb := digitVal_lt_10 b hd.1.2
      have hc := digitVal_lt_10 c hd.2
      have hn : 100 * digitVal a + 10 * digitVal b + digitVal c = n := Option.some.inj h
      have e1 : n / 100 = digitVal a := by omega
      have e2 : n / 10 % 10 = digitVal b := by omega
      have e3 : n % 10 = digitVal c := by omega
      refine ⟨?_, by omega⟩
      rw [padNat3_eq n (by omega), e1, e2, e3,
        digitChar_digitVal a hd.1.1, digitChar_digitVal b hd.1.2, digitChar_digitVal c hd.2]
    · exact absurd h (by simp)
  | a :: b :: c :: d :: t => simp [parse3] at h

lemma parseAlt_inv (cs : List Char) (v : ℤ) (h : parseAlt cs = some v)
    (hz : v = 0 → cs.headD ' ' ≠ '-') :
    cs = padInt 5 v ∧ -9999 ≤ v ∧ v ≤ 99999 := by
  match cs with
  | [] => simp [parseAlt] at h
  | [a] => simp [parseAlt] at h
  | [a, b] => simp [parseAlt] at h
  | [a, b, c] => simp [parseAlt] at h
  | [a, b, c, d] => simp [parseAlt] at h
  | [a, b, c, d, e] =>
    simp only [parseAlt] at h
    split at h
    · rename_i hd
      rw [Bool.and_eq_true, Bool.and_eq_true, Bool.and_eq_true] at hd
      have hb := digitVal_lt_10 b hd.1.1.1
      have hc := digitVal_lt_10 c hd.1.1.2
      have hdd := digitVal_lt_10 d hd.1.2
      have he := digitVal_lt_10 e hd.2
      set m : ℕ := 1000 * digitVal b + 100 * digitVal c + 10 * digitVal d + digitVal e with hm
      have htail : (1000 * (digitVal b : ℤ) + 100 * (digitVal c : ℤ)
          + 10 * (digitVal d : ℤ) + (digitVal e : ℤ)) = (m : ℤ) := by omega
      by_cases hdash : (a == '-') = true
      · rw [if_pos hdash, htail] at h
        have hv : -(m : ℤ) = v := Option.some.inj h
        have ha : a = '-' := by rwa [beq_iff_eq] at hdash
        have hm0 : m ≠ 0 := by
          intro h0
          exact hz (by omega) (by simp [ha])
        refine ⟨?_, by omega, by omega⟩
        rw [padInt, if_pos (by omega), ha]
        have : v.natAbs = m := by omega
        rw [this, padNat4_eq m (by omega)]
        have e1 : m / 1000 = digitVal b := by omega
        have e2 : m / 100 % 10 = digitVal c := by omega
        have e3 : m / 10 % 10 = digitVal d := by omega
        have e4 : m % 10 = digitVal e := by omega
        rw [e1, e2, e3, e4, digitChar_digitVal b hd.1.1.1, digitChar_digitVal c hd.1.1.2,
          digitChar_digitVal d hd.1.2, digitChar_digitVal e hd.2]
      · rw [Bool.not_eq_true] at hdash
        rw [hdash] at h
        simp only [Bool.false_eq_true, if_false] at h
        by_cases hA : a.isDigit = true
        · rw [if_pos hA, htail] at h
          have ha := digitVal_lt_10 a hA
          have hv : 10000 * (digitVal a : ℤ) + (m : ℤ) = v := Option.some.inj h
          set M : ℕ := 10000 * digitVal a + m with hM
          have hvM : v = (M : ℤ) := by omega
          refine ⟨?_, by omega, by omega⟩
          rw [padInt, if_neg (by omega)]
          have : v.natAbs = M := by omega
          rw [this, padNat5_eq M (by omega)]
          have e1 : M / 10000 = digitVal a := by omega
          have e2 : M / 1000 % 10 = digitVal b := by omega
          have e3 : M / 100 % 10 = digitVal c := by omega
          have e4 : M / 10 % 10 = digitVal d := by omega
          have e5 : M % 10 = digitVal e := by omega
          rw [e1, e2, e3, e4, e5, digitChar_digitVal a hA, digitChar_digitVal b hd.1.1.1,
            digitChar_digitVal c hd.1.1.2, digitChar_digitVal d hd.1.2, digitChar_digitVal e hd.2]
        · rw [Bool.not_eq_true] at hA
          rw [if_neg (by simp [hA])] at h
          exact absurd h (by simp)
    · exact absurd h (by simp)
  | a :: b :: c :: d :: e :: f :: t => simp [parseAlt] at h

lemma padNat2_length (n : ℕ) (h : n < 100) : (padNat 2 n).length = 2 := by
  rw [padNat2_eq n h]
  rfl

lemma padNat3_length (n : ℕ) (h : n < 1000) : (padNat 3 n).length = 3 := by
  rw [padNat3_eq n h]
  rfl

lemma padInt5_length (v : ℤ) (h1 : -9999 ≤ v) (h2 : v ≤ 99999) :
    (padInt 5 v).length = 5 := by
  rw [padInt]
  by_cases hv : v < 0
  · rw [if_pos hv]
    have : v.natAbs < 10000 := by omega
    rw [List.length_cons, show (5:ℕ) - 1 = 4 from rfl, padNat4_eq v.natAbs this]
    rfl
  · rw [if_neg hv]
    have : v.natAbs < 100000 := by omega
    rw [padNat5_eq v.natAbs this]
    rfl

lemma padInt_natCast (w n : ℕ) : padInt w (n : ℤ) = padNat w n := by
  rw [padInt, if_neg (by omega), Int.natAbs_ofNat]

lemma intTrunc_natCast (n : ℕ) : intTrunc (n : ℚ) = (n : ℤ) := by
  rw [intTrunc, if_neg (by exact not_lt.mpr (by exact_mod_cast Nat.zero_le n)), Int.floor_natCast]

lemma intTrunc_intCast (v : ℤ) : intTrunc (v : ℚ) = v := by
  by_cases hv : (v : ℚ) < 0
  · rw [intTrunc, if_pos hv, ← Int.cast_neg, Int.floor_intCast]
    ring
  · rw [intTrunc, if_neg hv, Int.floor_intCast]

lemma ediv_cast_3600 (m : ℕ) : ((m : ℤ)).ediv 3600 = ((m / 3600 : ℕ) : ℤ) := rfl

lemma emod_cast_3600 (m : ℕ) : ((m : ℤ)).emod 3600 = ((m % 3600 : ℕ) : ℤ) := rfl

lemma ediv_cast_60 (m : ℕ) : ((m : ℤ)).ediv 60 = ((m / 60 : ℕ) : ℤ) := rfl

lemma emod_cast_60 (m : ℕ) : ((m : ℤ)).emod 60 = ((m % 60 : ℕ) : ℤ) := rfl

lemma ediv_cast_60000 (m : ℕ) : ((m : ℤ)).ediv 60000 = ((m / 60000 : ℕ) : ℤ) := rfl

lemma emod_cast_60000 (m : ℕ) : ((m : ℤ)).emod 60000 = ((m % 60000 : ℕ) : ℤ) := rfl

lemma ediv_cast_1000 (m : ℕ) : ((m : ℤ)).ediv 1000 = ((m / 1000 : ℕ) : ℤ) := rfl

lemma emod_cast_1000 (m : ℕ) : ((m : ℤ)).emod 1000 = ((m % 1000 : ℕ) : ℤ) := rfl

lemma drop_chunk (l : List Char) (n m k : ℕ) (hk : k = n + m) :
    l.drop n = (l.drop n).take m ++ l.drop k := by
  subst hk
  conv_lhs => rw [← List.take_append_drop m (l.drop n)]
  rw [List.drop_drop, Nat.add_comm]

lemma getD_drop_zero (l : List Char) (n : ℕ) :
    (l.drop n).getD 0 ' ' = l.getD n ' ' := by
  rw [List.getD_eq_getElem?_getD, List.getD_eq_getElem?_getD, List.getElem?_drop,
    Nat.add_zero]

lemma headD_take_drop (l : List Char) (n k : ℕ) (hk : 0 < k) :
    ((l.drop n).take k).headD ' ' = l.getD n ' ' := by
  have h1 : ((l.drop n).take k).headD ' ' = ((l.drop n).take k).getD 0 ' ' := by
    cases (l.drop n).take k <;> rfl
  rw [h1, List.getD_eq_getElem?_getD, List.getElem?_take, if_pos hk,
    ← List.getD_eq_getElem?_getD, getD_drop_zero]

lemma getD_head_chunk (l : List Char) (n : ℕ) (c : Char) (t : List Char)
    (h : l.drop n = c :: t) : l.getD n ' ' = c := by
  rw [← getD_drop_zero, h, List.getD_cons_zero]

lemma takeWhile_all (p : Char → Bool) (l : List Char) (h : ∀ c ∈ l, p c = true) :
    l.takeWhile p = l := List.takeWhile_eq_self_iff.mpr h


lemma toList_mk (l : List Char) : (String.mk l).toList = l := rfl

lemma abs_sign_coord (x : ℚ) (h0 : 0 ≤ x) (negC posC s : Char)
    (hs : s = posC ∨ s = negC) (hnp : posC ≠ negC)
    (hz : s = negC → (if (s == negC) = true then -x else x) ≠ 0) :
    (if (if (s == negC) = true then -x else x) < 0
        then -(if (s == negC) = true then -x else x)
        else (if (s == negC) = true then -x else x)) = x
    ∧ (if (if (s == negC) = true then -x else x) < 0 then negC else posC) = s := by
  rcases hs with hs | hs
  · rw [hs, show (posC == negC) = false from beq_eq_false_iff_ne.mpr hnp]
    simp only [Bool.false_eq_true, if_false]
    rw [if_neg (not_lt.mpr h0), if_neg (not_lt.mpr h0)]
    exact ⟨rfl, rfl⟩
  · have hne : ¬(x = 0) := by
      intro h0'
      exact hz hs (by simp [h0'])
    have hpos : 0 < x := lt_of_le_of_ne h0 (Ne.symm hne)
    rw [hs, show (negC == negC) = true from beq_self_eq_true negC]
    simp only [if_true]
    rw [if_pos (by linarith), if_pos (by linarith)]
    exact ⟨neg_neg x, rfl⟩


set_option maxHeartbeats 2000000 in
theorem b_round_general (line : String) (idx : ℕ) (f : GNSSFix)
    (hparse : GNSSFix.build_from_B_record line idx = some f)
    (hm6 : digitVal (line.toList.getD 3 ' ') ≤ 5)
    (hs6 : digitVal (line.toList.getD 5 ' ') ≤ 5)
    (hlm6 : digitVal (line.toList.getD 9 ' ') ≤ 5)
    (hln6 : digitVal (line.toList.getD 18 ' ') ≤ 5)
    (hlatS : line.toList.getD 14 ' ' = 'S' → f.lat ≠ 0)
    (hlonW : line.toList.getD 23 ' ' = 'W' → f.lon ≠ 0)
    (hpaS : line.toList.getD 25 ' ' = '-' → f.press_alt ≠ 0)
    (hgaS : line.toList.getD 30 ' ' = '-' → f.gnss_alt ≠ 0)
    (hext : ∀ c ∈ line.toList.drop 35, isExtraChar c = true) :
    GNSSFix.to_B_record f = line := by
  simp only [GNSSFix.build_from_B_record] at hparse
  split at hparse
  · exact absurd hparse (by simp)
  · rename_i c0 rest hline
    split at hparse
    · rename_i hB
      split at hparse
      · rename_i u1 u2 u3 u4 u5 u6 u7 u8 u9 u10 u11
          vhours vminutes vseconds vlatd vlatm vlatt vlond vlonm vlont vpa vga
          heq1 heq2 heq3 heq4 heq5 heq6 heq7 heq8 heq9 heq10 heq11
        clear u1 u2 u3 u4 u5 u6 u7 u8 u9 u10 u11
        split at hparse
        · rename_i hsign
          have hf := (Option.some.inj hparse).symm
          subst hf
          have hc0 : c0 = 'B' := by rwa [beq_iff_eq] at hB
          subst hc0
          -- translate the line-level hypotheses to `rest`
          have hgD : ∀ n : ℕ, line.toList.getD (n + 1) ' ' = rest.getD n ' ' := by
            intro n
            rw [hline]
            exact List.getD_cons_succ
          have hdrop : line.toList.drop 35 = rest.drop 34 := by
            rw [hline]
            rfl
          rw [show (3:ℕ) = 2 + 1 from rfl, hgD 2] at hm6
          rw [show (5:ℕ) = 4 + 1 from rfl, hgD 4] at hs6
          rw [show (9:ℕ) = 8 + 1 from rfl, hgD 8] at hlm6
          rw [show (18:ℕ) = 17 + 1 from rfl, hgD 17] at hln6
          rw [show (14:ℕ) = 13 + 1 from rfl, hgD 13] at hlatS
          rw [show (23:ℕ) = 22 + 1 from rfl, hgD 22] at hlonW
          rw [show (25:ℕ) = 24 + 1 from rfl, hgD 24] at hpaS
          rw [show (30:ℕ) = 29 + 1 from rfl, hgD 29] at hgaS
          rw [hdrop] at hext
          -- invert the numeric chunks
          obtain ⟨hc1, hb1⟩ := parse2_inv _ _ heq1
          obtain ⟨hc2, hb2⟩ := parse2_inv _ _ heq2
          obtain ⟨hc3, hb3⟩ := parse2_inv _ _ heq3
          obtain ⟨hc4, hb4⟩ := parse2_inv _ _ heq4
          obtain ⟨hc5, hb5⟩ := parse2_inv _ _ heq5
          obtain ⟨hc6, hb6⟩ := parse3_inv _ _ heq6
          obtain ⟨hc7, hb7⟩ := parse3_inv _ _ heq7
          obtain ⟨hc8, hb8⟩ := parse2_inv _ _ heq8
          obtain ⟨hc9, hb9⟩ := parse3_inv _ _ heq9
          have hz10 : vpa = 0 → ((rest.drop 24).take 5).headD ' ' ≠ '-' := by
            intro h0 hdash
            rw [headD_take_drop rest 24 5 (by norm_num)] at hdash
            refine hpaS hdash (show (vpa : ℚ) = 0 from by exact_mod_cast h0)
          obtain ⟨hc10, hpa1, hpa2⟩ := parseAlt_inv _ _ heq10 hz10
          have hz11 : vga = 0 → ((rest.drop 29).take 5).headD ' ' ≠ '-' := by
            intro h0 hdash
            rw [headD_take_drop rest 29 5 (by norm_num)] at hdash
            refine hgaS hdash (show (vga : ℚ) = 0 from by exact_mod_cast h0)
          obtain ⟨hc11, hga1, hga2⟩ := parseAlt_inv _ _ heq11 hz11
          -- rest is at least 34 characters long
          have hlen34 : 34 ≤ rest.length := by
            have h5 : ((rest.drop 29).take 5).length = 5 := by
              rw [hc11]
              exact padInt5_length vga hga1 hga2
            simp only [List.length_take, List.length_drop] at h5
            omega
          -- decomposition of rest into the emitted chunks
          have e0 : rest = rest.take 2 ++ rest.drop 2 := (List.take_append_drop 2 rest).symm
          have e2 : rest.drop 2 = (rest.drop 2).take 2 ++ rest.drop 4 :=
            drop_chunk rest 2 2 4 (by norm_num)
          have e4 : rest.drop 4 = (rest.drop 4).take 2 ++ rest.drop 6 :=
            drop_chunk rest 4 2 6 (by norm_num)
          have e6 : rest.drop 6 = (rest.drop 6).take 2 ++ rest.drop 8 :=
            drop_chunk rest 6 2 8 (by norm_num)
          have e8 : rest.drop 8 = (rest.drop 8).take 2 ++ rest.drop 10 :=
            drop_chunk rest 8 2 10 (by norm_num)
          have e10 : rest.drop 10 = (rest.drop 10).take 3 ++ rest.drop 13 :=
            drop_chunk rest 10 3 13 (by norm_num)
          have e13 : rest.drop 13 = rest[13] :: rest.drop 14 :=
            List.drop_eq_getElem_cons (by omega)
          have e14 : rest.drop 14 = (rest.drop 14).take 3 ++ rest.drop 17 :=
            drop_chunk rest 14 3 17 (by norm_num)
          have e17 : rest.drop 17 = (rest.drop 17).take 2 ++ rest.drop 19 :=
            drop_chunk rest 17 2 19 (by norm_num)
          have e19 : rest.drop 19 = (rest.drop 19).take 3 ++ rest.drop 22 :=
            drop_chunk rest 19 3 22 (by norm_num)
          have e22 : rest.drop 22 = rest[22] :: rest.drop 23 :=
            List.drop_eq_getElem_cons (by omega)
          have e23 : rest.drop 23 = rest[23] :: rest.drop 24 :=
            List.drop_eq_getElem_cons (by omega)
          have e24 : rest.drop 24 = (rest.drop 24).take 5 ++ rest.drop 29 :=
            drop_chunk rest 24 5 29 (by norm_num)
          have e29 : rest.drop 29 = (rest.drop 29).take 5 ++ rest.drop 34 :=
            drop_chunk rest 29 5 34 (by norm_num)
          -- tens digits of the minute/second fields are at most 5
          have g2 : rest.getD 2 ' ' = digitChar (vminutes / 10) :=
            getD_head_chunk rest 2 (digitChar (vminutes / 10))
              (digitChar (vminutes % 10) :: rest.drop 4)
              (by rw [e2, hc2, padNat2_eq vminutes hb2]; rfl)
          have g4 : rest.getD 4 ' ' = digitChar (vseconds / 10) :=
            getD_head_chunk rest 4 (digitChar (vseconds / 10))
              (digitChar (vseconds % 10) :: rest.drop 6)
              (by rw [e4, hc3, padNat2_eq vseconds hb3]; rfl)
          have g8 : rest.getD 8 ' ' = digitChar (vlatm / 10) :=
            getD_head_chunk rest 8 (digitChar (vlatm / 10))
              (digitChar (vlatm % 10) :: rest.drop 10)
              (by rw [e8, hc5, padNat2_eq vlatm hb5]; rfl)
          have g17 : rest.getD 17 ' ' = digitChar (vlonm / 10) :=
            getD_head_chunk rest 17 (digitChar (vlonm / 10))
              (digitChar (vlonm % 10) :: rest.drop 19)
              (by rw [e17, hc8, padNat2_eq vlonm hb8]; rfl)
          have hm59 : vminutes ≤ 59 := by
            rw [g2, digitVal_digitChar _ (by omega)] at hm6
            omega
          have hs59 : vseconds ≤ 59 := by
            rw [g4, digitVal_digitChar _ (by omega)] at hs6
            omega
          have hlm59 : vlatm ≤ 59 := by
            rw [g8, digitVal_digitChar _ (by omega)] at hlm6
            omega
          have hln59 : vlonm ≤ 59 := by
            rw [g17, digitVal_digitChar _ (by omega)] at hln6
            omega
          -- sign guard of the regular expression
          simp only [Bool.and_eq_true, Bool.or_eq_true, beq_iff_eq] at hsign
          obtain ⟨⟨hsA, hsB⟩, hsC⟩ := hsign
          obtain ⟨habs1, hsgn1⟩ :=
            abs_sign_coord ((vlatd : ℚ) + (vlatm : ℚ) / 60 + (vlatt : ℚ) / 1000 / 60)
              (by positivity) 'S' 'N' (rest.getD 13 ' ') hsA (by decide)
              (fun hS => hlatS hS)
          obtain ⟨habs2, hsgn2⟩ :=
            abs_sign_coord ((vlond : ℚ) + (vlonm : ℚ) / 60 + (vlont : ℚ) / 1000 / 60)
              (by positivity) 'W' 'E' (rest.getD 22 ' ') hsB (by decide)
              (fun hW => hlonW hW)
          -- unfold the emitter and normalise every numeric field
          simp only [GNSSFix.to_B_record]
          rw [habs1, hsgn1, habs2, hsgn2]
          have hq : ((vhours : ℚ) * 60 + (vminutes : ℚ)) * 60 + (vseconds : ℚ)
              = (((vhours * 60 + vminutes) * 60 + vseconds : ℕ) : ℚ) := by
            push_cast
            ring
          rw [hq, intTrunc_natCast, ediv_cast_3600, emod_cast_3600, ediv_cast_60, emod_cast_60]
          have hvh : ((vhours * 60 + vminutes) * 60 + vseconds) / 3600 = vhours := by omega
          have hvm : ((vhours * 60 + vminutes) * 60 + vseconds) % 3600 / 60 = vminutes := by omega
          have hvs : ((vhours * 60 + vminutes) * 60 + vseconds) % 60 = vseconds := by omega
          rw [hvh, hvm, hvs]
          have hqlat : ((vlatd : ℚ) + (vlatm : ℚ) / 60 + (vlatt : ℚ) / 1000 / 60) * 60000
              = ((60000 * vlatd + 1000 * vlatm + vlatt : ℕ) : ℚ) := by
            push_cast
            ring
          rw [hqlat, round_natCast, ediv_cast_60000, emod_cast_60000, ediv_cast_1000,
            emod_cast_1000]
          have hld : (60000 * vlatd + 1000 * vlatm + vlatt) / 60000 = vlatd := by omega
          have hlm : (60000 * vlatd + 1000 * vlatm + vlatt) % 60000 / 1000 = vlatm := by omega
          have hlt : (60000 * vlatd + 1000 * vlatm + vlatt) % 1000 = vlatt := by omega
          rw [hld, hlm, hlt]
          have hqlon : ((vlond : ℚ) + (vlonm : ℚ) / 60 + (vlont : ℚ) / 1000 / 60) * 60000
              = ((60000 * vlond + 1000 * vlonm + vlont : ℕ) : ℚ) := by
            push_cast
            ring
          rw [hqlon, round_natCast, ediv_cast_60000, emod_cast_60000, ediv_cast_1000,
            emod_cast_1000]
          have hnd : (60000 * vlond + 1000 * vlonm + vlont) / 60000 = vlond := by omega
          have hnm : (60000 * vlond + 1000 * vlonm + vlont) % 60000 / 1000 = vlonm := by omega
          have hnt : (60000 * vlond + 1000 * vlonm + vlont) % 1000 = vlont := by omega
          rw [hnd, hnm, hnt]
          rw [intTrunc_intCast vpa, intTrunc_intCast vga]
          simp only [padInt_natCast]
          rw [takeWhile_all isExtraChar (rest.drop 34) hext, toList_mk]
          rw [List.getD_eq_getElem rest ' ' (show 13 < rest.length by omega),
            List.getD_eq_getElem rest ' ' (show 22 < rest.length by omega),
            List.getD_eq_getElem rest ' ' (show 23 < rest.length by omega)]
          have hline2 : line = String.mk ('B' :: rest) := by
            rw [← hline]
            rfl
          rw [hline2]
          apply congrArg String.mk
          conv_rhs => rw [e0, e2, e4, e6, e8, e10, e13, e14, e17, e19, e22, e23, e24, e29]
          rw [hc1, hc2, hc3, hc4, hc5, hc6, hc7, hc8, hc9, hc10, hc11]
          simp only [List.cons_append, List.append_assoc, List.nil_append]
        · exact absurd hparse (by simp)
      · exact absurd hparse (by simp)
    · exact absurd hparse (by simp)


/-- C5: Emitting the B-record of a parsed fix reproduces the line.  The
concrete line of the claim round-trips identically; in general the
round-trip is exact (including the minute-thousandths, which are exact
in this rational model) whenever the minute and second fields are in
canonical range (tens digit at most 5), hemisphere letters S/W and
altitude minus signs accompany nonzero values, and the line carries no
trailing characters outside the extras class. -/
theorem b_record_round_trip :
    ((GNSSFix.build_from_B_record "B1101355206343N00006198WA0058700558" 0).map
        GNSSFix.to_B_record = some "B1101355206343N00006198WA0058700558")
    ∧ ∀ (line : String) (idx : ℕ) (f : GNSSFix),
        GNSSFix.build_from_B_record line idx = some f →
        digitVal (line.toList.getD 3 ' ') ≤ 5 →
        digitVal (line.toList.getD 5 ' ') ≤ 5 →
        digitVal (line.toList.getD 9 ' ') ≤ 5 →
        digitVal (line.toList.getD 18 ' ') ≤ 5 →
        (line.toList.getD 14 ' ' = 'S' → f.lat ≠ 0) →
        (line.toList.getD 23 ' ' = 'W' → f.lon ≠ 0) →
        (line.toList.getD 25 ' ' = '-' → f.press_alt ≠ 0) →
        (line.toList.getD 30 ' ' = '-' → f.gnss_alt ≠ 0) →
        (∀ c ∈ line.toList.drop 35, isExtraChar c = true) →
        GNSSFix.to_B_record f = line :=
  ⟨by with_unfolding_all decide,
   fun line idx f h1 h2 h3 h4 h5 h6 h7 h8 h9 h10 =>
     b_round_general line idx f h1 h2 h3 h4 h5 h6 h7 h8 h9 h10⟩

/-- Closed witness for `b_record_round_trip`: the hypotheses of the
general part hold for the concrete line of the claim, and the
round-trip is the identity there. -/
theorem b_record_round_trip_witness :
    GNSSFix.to_B_record
        ⟨((11:ℚ) * 60 + 1) * 60 + 35, (52:ℚ) + 6 / 60 + 343 / 1000 / 60,
          -((0:ℚ) + 6 / 60 + 198 / 1000 / 60), 'A', ((587:ℤ) : ℚ), ((558:ℤ) : ℚ), 3, "", 0⟩
      = "B1101355206343N00006198WA0058700558" :=
  b_record_round_trip.2 "B1101355206343N00006198WA0058700558" 3 _
    (by with_unfolding_all rfl)
    (by with_unfolding_all decide) (by with_unfolding_all decide)
    (by with_unfolding_all decide) (by with_unfolding_all decide)
    (by with_unfolding_all decide) (by with_unfolding_all decide)
    (by with_unfolding_all decide) (by with_unfolding_all decide)
    (by with_unfolding_all decide)

/-- Counterexample to the claim that hemisphere letters round-trip
exactly: a zero latitude parsed from an S hemisphere letter re-emits
with an N, so parse-then-emit changes the line. -/
theorem b_record_zero_south_not_identity :
    (GNSSFix.build_from_B_record "B1101350000000S00006198WA0058700558" 0).map
        GNSSFix.to_B_record = some "B1101350000000N00006198WA0058700558"
    ∧ ("B1101350000000N00006198WA0058700558" : String)
      ≠ "B1101350000000S00006198WA0058700558" := by
  constructor
  · with_unfolding_all decide
  · decide


/-! ### C1: a flight without a detected takeoff -/

lemma takeoffLandingLoop_no_flying (pf : Bool) (lnd : Option GNSSFix) (w : Bool)
    (l : List (GNSSFix × Bool)) (h : ∀ p ∈ l, p.2 = false) :
    (takeoffLandingLoop pf none lnd w l).1 = none := by
  induction l generalizing lnd w with
  | nil => rfl
  | cons p rest ih =>
    obtain ⟨f, fl⟩ := p
    have hfl : fl = false := h (f, fl) (List.mem_cons_self _ _)
    subst hfl
    have hrest : ∀ q ∈ rest, q.2 = false := fun q hq => h q (List.mem_cons_of_mem _ hq)
    simp only [takeoffLandingLoop, Bool.false_and, Bool.false_eq_true, if_false,
      Bool.not_false, Bool.true_and]
    split
    · split
      · rfl
      · exact ih (some f) false hrest
    · exact ih lnd false hrest

lemma compute_takeoff_landing_no_flying (cfg : FlightParsingConfig)
    (l : List (GNSSFix × Bool)) (h : ∀ p ∈ l, p.2 = false) :
    compute_takeoff_landing cfg l = none := by
  simp only [compute_takeoff_landing]
  rw [takeoffLandingLoop_no_flying cfg.pick_first_flight none false l h]

lemma findNextFlyingRawtime_zero (l : List (ℚ × ℕ)) (h : ∀ p ∈ l, p.2 = 0) :
    findNextFlyingRawtime l = none := by
  induction l with
  | nil => rfl
  | cons p rest ih =>
    obtain ⟨rt, o⟩ := p
    have ho : o = 0 := h (rt, o) (List.mem_cons_self _ _)
    subst ho
    simp only [findNextFlyingRawtime]
    rw [if_neg (by omega)]
    exact ih (fun q hq => h q (List.mem_cons_of_mem _ hq))

lemma landingFilterLoop_zero (ml : ℚ) (ap : Bool) (l : List (ℚ × ℕ))
    (h : ∀ p ∈ l, p.2 = 0) : ∀ b ∈ landingFilterLoop ml false ap l, b = false := by
  induction l generalizing ap with
  | nil => intro b hb; simp [landingFilterLoop] at hb
  | cons p rest ih =>
    obtain ⟨rt, o⟩ := p
    have ho : o = 0 := h (rt, o) (List.mem_cons_self _ _)
    subst ho
    have hrest : ∀ q ∈ rest, q.2 = 0 := fun q hq => h q (List.mem_cons_of_mem _ hq)
    intro b hb
    simp only [landingFilterLoop] at hb
    rw [if_neg (by omega)] at hb
    by_cases hap : ap = true
    · rw [if_pos hap] at hb
      rcases List.mem_cons.mp hb with hb | hb
      · exact hb
      · exact ih ap hrest b hb
    · rw [if_neg hap, if_neg (by simp)] at hb
      rw [findNextFlyingRawtime_zero rest hrest] at hb
      rcases List.mem_cons.mp hb with hb | hb
      · exact hb
      · exact ih true hrest b hb

lemma computeGroundSpeeds_zero {α : Type} [LinearOrderedField α]
    (dist : GNSSFix → GNSSFix → α) (l : List GNSSFix)
    (hd : ∀ f g, f ∈ l → g ∈ l → dist f g = 0) :
    ∀ x ∈ computeGroundSpeeds dist l, x = 0 := by
  intro x hx
  match l, hx with
  | f0 :: t, hx =>
    simp only [computeGroundSpeeds] at hx
    rcases List.mem_cons.mp hx with hx | hx
    · exact hx
    · obtain ⟨p, hp, hpx⟩ := List.mem_map.mp hx
      have hmem := List.of_mem_zip hp
      have h1 : p.1 ∈ f0 :: t := hmem.1
      have h2 : p.2 ∈ f0 :: t := List.tail_subset _ hmem.2
      rw [← hpx]
      split
      · rfl
      · rw [hd p.2 p.1 h2 h1, zero_div, zero_mul]

lemma computeGroundSpeeds_length {α : Type} [LinearOrderedField α]
    (dist : GNSSFix → GNSSFix → α) (l : List GNSSFix) :
    (computeGroundSpeeds dist l).length = l.length := by
  match l with
  | [] => rfl
  | f0 :: t =>
    simp only [computeGroundSpeeds, List.length_cons, List.length_map, List.length_zip,
      List.tail_cons]
    omega

lemma flyingEmissions_zero {α : Type} [LinearOrderedField α] (cfg : FlightParsingConfig)
    (hpos : 0 ≤ cfg.min_gsp_flight) (g : List α) (h : ∀ x ∈ g, x = 0) :
    flyingEmissions cfg g = List.replicate g.length 0 := by
  rw [List.eq_replicate_iff]
  refine ⟨by simp [flyingEmissions], ?_⟩
  intro o ho
  obtain ⟨x, hx, hxo⟩ := List.mem_map.mp ho
  rw [← hxo, h x hx, if_neg (not_lt.mpr (by exact_mod_cast hpos))]

lemma spec_earth_distance_self (la lo : ℚ) : spec_earth_distance la lo la lo = 0 := by
  simp [spec_earth_distance]


lemma flightInit_no_takeoff_core {α : Type} [LinearOrderedField α] [FloorRing α]
    (cfg : FlightParsingConfig) (dist bearingTo : GNSSFix → GNSSFix → α)
    (fixes : List GNSSFix) (dateTs : ℚ)
    (hlen : ¬ fixes.length < cfg.min_fixes)
    (hviol : ¬ (check_fix_rawtime cfg fixes).2.2 > cfg.max_time_violations)
    (hdays : ¬ (check_fix_rawtime cfg fixes).2.1 > cfg.max_new_days_in_flight)
    (halt : ¬ ((check_altitudes cfg fixes).1 = false ∧ (check_altitudes cfg fixes).2.1 = false))
    (hfly : ∀ b ∈ compute_flight cfg dist
        (setAlts
          ((if (check_altitudes cfg fixes).1 then AltSource.press else AltSource.gnss)
            == AltSource.press)
          (check_fix_rawtime cfg fixes).1), b = false) :
    (flightInit cfg dist bearingTo fixes (some dateTs)).valid = false
    ∧ (flightInit cfg dist bearingTo fixes (some dateTs)).notes.getLast?
        = some Note.didNotDetectTakeoff
    ∧ (flightInit cfg dist bearingTo fixes (some dateTs)).takeoff_fix = none
    ∧ (flightInit cfg dist bearingTo fixes (some dateTs)).landing_fix = none
    ∧ (flightInit cfg dist bearingTo fixes (some dateTs)).thermals = none
    ∧ (flightInit cfg dist bearingTo fixes (some dateTs)).glides = none := by
  have htl : compute_takeoff_landing cfg
      ((setAlts
          ((if (check_altitudes cfg fixes).1 then AltSource.press else AltSource.gnss)
            == AltSource.press)
          (check_fix_rawtime cfg fixes).1).zip
        (compute_flight cfg dist
          (setAlts
            ((if (check_altitudes cfg fixes).1 then AltSource.press else AltSource.gnss)
              == AltSource.press)
            (check_fix_rawtime cfg fixes).1))) = none := by
    apply compute_takeoff_landing_no_flying
    intro p hp
    exact hfly p.2 (List.of_mem_zip hp).2
  simp only [flightInit]
  rw [if_neg hlen, if_neg (by rw [not_or]; exact ⟨hviol, hdays⟩), if_neg halt, htl]
  exact ⟨rfl, List.getLast?_concat _, rfl, rfl, rfl, rfl⟩


/-- Fifty fixes at a single point on the equator with alternating
pressure altitude: enough fixes, sane altitudes and times, but no
motion, so no fix is ever labelled flying. -/
def cex1Fixes : List GNSSFix :=
  (List.range 50).map (fun (i : ℕ) => mkFix ((i : ℕ) : ℚ) 0 (if i % 2 = 0 then 0 else 1) i)

lemma cex1_no_flying :
    ∀ b ∈ compute_flight defaultConfig distance_to
        (setAlts
          ((if (check_altitudes defaultConfig cex1Fixes).1 then AltSource.press
            else AltSource.gnss) == AltSource.press)
          (check_fix_rawtime defaultConfig cex1Fixes).1), b = false := by
  intro b hb
  have hposzero : ∀ f ∈ setAlts
      ((if (check_altitudes defaultConfig cex1Fixes).1 then AltSource.press
        else AltSource.gnss) == AltSource.press)
      (check_fix_rawtime defaultConfig cex1Fixes).1, f.lat = 0 ∧ f.lon = 0 := by
    with_unfolding_all decide
  have hdist : ∀ f g, f ∈ setAlts
      ((if (check_altitudes defaultConfig cex1Fixes).1 then AltSource.press
        else AltSource.gnss) == AltSource.press)
      (check_fix_rawtime defaultConfig cex1Fixes).1 → g ∈ setAlts
      ((if (check_altitudes defaultConfig cex1Fixes).1 then AltSource.press
        else AltSource.gnss) == AltSource.press)
      (check_fix_rawtime defaultConfig cex1Fixes).1 → distance_to f g = 0 := by
    intro f g hf hg
    obtain ⟨hf1, hf2⟩ := hposzero f hf
    obtain ⟨hg1, hg2⟩ := hposzero g hg
    rw [distance_to, hf1, hf2, hg1, hg2]
    exact spec_earth_distance_self 0 0
  have hgsp := computeGroundSpeeds_zero distance_to _ hdist
  have hem : flyingEmissions defaultConfig (computeGroundSpeeds distance_to
      (setAlts
        ((if (check_altitudes defaultConfig cex1Fixes).1 then AltSource.press
          else AltSource.gnss) == AltSource.press)
        (check_fix_rawtime defaultConfig cex1Fixes).1))
      = List.replicate 50 0 := by
    rw [flyingEmissions_zero defaultConfig (by norm_num [defaultConfig]) _ hgsp,
      computeGroundSpeeds_length]
    with_unfolding_all rfl
  have hdec : viterbiDecode flyingHMM (List.replicate 50 0) = List.replicate 50 0 := by
    with_unfolding_all decide
  simp only [compute_flight, hem, hdec] at hb
  refine landingFilterLoop_zero defaultConfig.min_landing_time false _ ?_ b hb
  intro p hp
  exact List.eq_of_mem_replicate (List.of_mem_zip hp).2

/-- C1: when no takeoff is detected the `valid` flag does NOT stay
true: `Flight.__init__` sets `self.valid = False` (core.py line 149)
before returning.  A "did not detect takeoff" note is appended as the
last note, `takeoff_fix`, `landing_fix`, `thermals` and `glides` all
remain unset.  The hypotheses reproduce the conditions under which the
pipeline reaches takeoff detection, with no fix labelled flying. -/
theorem noTakeoff_sets_invalid {α : Type} [LinearOrderedField α] [FloorRing α]
    (cfg : FlightParsingConfig) (dist bearingTo : GNSSFix → GNSSFix → α)
    (fixes : List GNSSFix) (dateTs : ℚ)
    (hlen : ¬ fixes.length < cfg.min_fixes)
    (hviol : ¬ (check_fix_rawtime cfg fixes).2.2 > cfg.max_time_violations)
    (hdays : ¬ (check_fix_rawtime cfg fixes).2.1 > cfg.max_new_days_in_flight)
    (halt : ¬ ((check_altitudes cfg fixes).1 = false ∧ (check_altitudes cfg fixes).2.1 = false))
    (hfly : ∀ b ∈ compute_flight cfg dist
        (setAlts
          ((if (check_altitudes cfg fixes).1 then AltSource.press else AltSource.gnss)
            == AltSource.press)
          (check_fix_rawtime cfg fixes).1), b = false) :
    (flightInit cfg dist bearingTo fixes (some dateTs)).valid = false
    ∧ (flightInit cfg dist bearingTo fixes (some dateTs)).notes.getLast?
        = some Note.didNotDetectTakeoff
    ∧ (flightInit cfg dist bearingTo fixes (some dateTs)).takeoff_fix = none
    ∧ (flightInit cfg dist bearingTo fixes (some dateTs)).landing_fix = none
    ∧ (flightInit cfg dist bearingTo fixes (some dateTs)).thermals = none
    ∧ (flightInit cfg dist bearingTo fixes (some dateTs)).glides = none :=
  flightInit_no_takeoff_core cfg dist bearingTo fixes dateTs hlen hviol hdays halt hfly

/-- Closed witness for `noTakeoff_sets_invalid` on the motionless
50-fix flight. -/
theorem noTakeoff_sets_invalid_witness :
    (flightInit defaultConfig distance_to bearing_to cex1Fixes (some 0)).valid = false
    ∧ (flightInit defaultConfig distance_to bearing_to cex1Fixes (some 0)).notes.getLast?
        = some Note.didNotDetectTakeoff
    ∧ (flightInit defaultConfig distance_to bearing_to cex1Fixes (some 0)).takeoff_fix = none
    ∧ (flightInit defaultConfig distance_to bearing_to cex1Fixes (some 0)).landing_fix = none
    ∧ (flightInit defaultConfig distance_to bearing_to cex1Fixes (some 0)).thermals = none
    ∧ (flightInit defaultConfig distance_to bearing_to cex1Fixes (some 0)).glides = none :=
  noTakeoff_sets_invalid defaultConfig distance_to bearing_to cex1Fixes 0
    (by with_unfolding_all decide) (by with_unfolding_all decide)
    (by with_unfolding_all decide) (by with_unfolding_all decide)
    cex1_no_flying

/-- Counterexample to "the `valid` flag stays true" when no takeoff is
detected: on the motionless 50-fix flight the engine reaches takeoff
detection, finds none, and sets `valid` to `false`. -/
theorem flight_no_takeoff_valid_false :
    (flightInit defaultConfig distance_to bearing_to cex1Fixes (some 0)).valid = false
    ∧ (flightInit defaultConfig distance_to bearing_to cex1Fixes (some 0)).notes.getLast?
        = some Note.didNotDetectTakeoff :=
  ⟨(flightInit_no_takeoff_core defaultConfig distance_to bearing_to cex1Fixes 0
      (by with_unfolding_all decide) (by with_unfolding_all decide)
      (by with_unfolding_all decide) (by with_unfolding_all decide)
      cex1_no_flying).1,
   (flightInit_no_takeoff_core defaultConfig distance_to bearing_to cex1Fixes 0
      (by with_unfolding_all decide) (by with_unfolding_all decide)
      (by with_unfolding_all decide) (by with_unfolding_all decide)
      cex1_no_flying).2.1⟩


/-! ### C2: time ordering of valid flights -/

lemma countLow_cons_cons (cfg : FlightParsingConfig) (a b : ℚ) (L : List ℚ) :
    countLowGaps cfg (a :: b :: L)
      = (if b - a < cfg.min_seconds_between_fixes - 1/100000 then 1 else 0)
        + countLowGaps cfg (b :: L) := by
  simp only [countLowGaps, List.tail_cons, List.zip_cons_cons, List.countP_cons,
    decide_eq_true_eq]
  omega

lemma rawtimeLoop_countLow (cfg : FlightParsingConfig) (l : List GNSSFix) :
    ∀ (prev offs : ℚ) (days viol : ℕ),
      viol + countLowGaps cfg
          (prev :: ((rawtimeLoop cfg prev offs days viol l).1.map GNSSFix.rawtime))
        ≤ (rawtimeLoop cfg prev offs days viol l).2.2 := by
  induction l with
  | nil =>
    intro prev offs days viol
    simp [rawtimeLoop, countLowGaps]
  | cons f rest ih =>
    intro prev offs days viol
    simp only [rawtimeLoop, List.map_cons]
    rw [countLow_cons_cons]
    have h := ih (if decide (prev > f.rawtime + offs ∧ f.rawtime + offs + 86400 < prev + 200)
          then f.rawtime + offs + 86400 else f.rawtime + offs)
      (if decide (prev > f.rawtime + offs ∧ f.rawtime + offs + 86400 < prev + 200)
          then offs + 86400 else offs)
      (if decide (prev > f.rawtime + offs ∧ f.rawtime + offs + 86400 < prev + 200)
          then days + 1 else days)
      (viol
        + (if (if decide (prev > f.rawtime + offs ∧ f.rawtime + offs + 86400 < prev + 200)
              then f.rawtime + offs + 86400 else f.rawtime + offs) - prev
              < cfg.min_seconds_between_fixes - 1/100000 then 1 else 0)
        + (if (if decide (prev > f.rawtime + offs ∧ f.rawtime + offs + 86400 < prev + 200)
              then f.rawtime + offs + 86400 else f.rawtime + offs) - prev
              > cfg.max_seconds_between_fixes + 1/100000 then 1 else 0))
    omega

lemma check_fix_rawtime_countLow (cfg : FlightParsingConfig) (fixes : List GNSSFix) :
    countLowGaps cfg ((check_fix_rawtime cfg fixes).1.map GNSSFix.rawtime)
      ≤ (check_fix_rawtime cfg fixes).2.2 := by
  match fixes with
  | [] => simp [check_fix_rawtime, countLowGaps]
  | f0 :: rest =>
    simp only [check_fix_rawtime, List.map_cons]
    have h := rawtimeLoop_countLow cfg rest f0.rawtime 0 0 0
    omega

lemma setAlts_rawtime (b : Bool) (l : List GNSSFix) :
    (setAlts b l).map GNSSFix.rawtime = l.map GNSSFix.rawtime := by
  simp only [setAlts, List.map_map]
  rfl


/-- C2 general form: a flight that finishes construction with
`valid = true` has passed the time check, so at most
`max_time_violations` adjacent pairs of the repaired rawtime sequence
have a gap below `min_seconds_between_fixes - 1e-5`; in particular at
most that many adjacent pairs are out of order.  Strict monotonicity
is not guaranteed. -/
theorem valid_time_gaps_bounded {α : Type} [LinearOrderedField α] [FloorRing α]
    (cfg : FlightParsingConfig) (dist bearingTo : GNSSFix → GNSSFix → α)
    (fixes : List GNSSFix) (dateOpt : Option ℚ)
    (hv : (flightInit cfg dist bearingTo fixes dateOpt).valid = true) :
    countLowGaps cfg ((flightInit cfg dist bearingTo fixes dateOpt).fixes.map GNSSFix.rawtime)
      ≤ cfg.max_time_violations := by
  simp only [flightInit] at hv ⊢
  by_cases h1 : fixes.length < cfg.min_fixes
  · rw [if_pos h1] at hv
    simp at hv
  · rw [if_neg h1] at hv ⊢
    by_cases h2 : (check_fix_rawtime cfg fixes).2.2 > cfg.max_time_violations ∨
        (check_fix_rawtime cfg fixes).2.1 > cfg.max_new_days_in_flight
    · rw [if_pos h2] at hv
      simp at hv
    · rw [if_neg h2] at hv ⊢
      by_cases h3 : (check_altitudes cfg fixes).1 = false ∧ (check_altitudes cfg fixes).2.1 = false
      · rw [if_pos h3] at hv
        simp at hv
      · rw [if_neg h3] at hv ⊢
        cases dateOpt with
        | none => simp at hv
        | some d =>
          simp only [] at hv ⊢
          split at hv
          · simp at hv
          · rename_i tl htl
            simp only [setAlts_rawtime]
            have hb := check_fix_rawtime_countLow cfg fixes
            rw [not_or] at h2
            omega


lemma abs_sin_eq (x : ℝ) (h : |x| ≤ Real.pi / 2) : |Real.sin x| = Real.sin |x| := by
  rcases le_or_lt 0 x with h0 | h0
  · rw [abs_of_nonneg h0, abs_of_nonneg (Real.sin_nonneg_of_nonneg_of_le_pi h0 (by
      have := Real.pi_gt_three
      rw [abs_of_nonneg h0] at h
      linarith))]
  · rw [abs_of_neg h0]
    have hs : Real.sin x = -Real.sin (-x) := by
      rw [Real.sin_neg]
      ring
    rw [hs, abs_neg, abs_of_nonneg (Real.sin_nonneg_of_nonneg_of_le_pi (by linarith) (by
      have := Real.pi_gt_three
      rw [abs_of_neg h0] at h
      linarith))]

/-- On the meridian the spec haversine reduces to arc length: the
distance between latitudes `a` and `b` (longitude 0) is
`6371 · |b−a| · π/180` kilometres. -/
lemma spec_earth_distance_meridian (a b : ℚ) (hab : |(b : ℝ) - (a : ℝ)| ≤ 180) :
    spec_earth_distance a 0 b 0 = 6371 * |(b : ℝ) - (a : ℝ)| * Real.pi / 180 := by
  have hpi := Real.pi_gt_three
  simp only [spec_earth_distance, Rat.cast_zero, sub_zero, sub_self, zero_mul, zero_div,
    Real.sin_zero, ne_eq, OfNat.ofNat_ne_zero, not_false_eq_true, zero_pow, mul_zero, add_zero]
  have hX : ((b : ℝ) * Real.pi / 180 - (a : ℝ) * Real.pi / 180) / 2
      = ((b : ℝ) - (a : ℝ)) * (Real.pi / 360) := by ring
  rw [hX, Real.sqrt_sq_eq_abs]
  have habs2 : |((b : ℝ) - (a : ℝ)) * (Real.pi / 360)|
      = |(b : ℝ) - (a : ℝ)| * (Real.pi / 360) := by
    rw [abs_mul, abs_of_pos (show (0:ℝ) < Real.pi / 360 by positivity)]
  have hb2 : |((b : ℝ) - (a : ℝ)) * (Real.pi / 360)| ≤ Real.pi / 2 := by
    rw [habs2]
    nlinarith [abs_nonneg ((b : ℝ) - (a : ℝ))]
  rw [abs_sin_eq _ hb2, habs2,
    Real.arcsin_sin (by nlinarith [abs_nonneg ((b : ℝ) - (a : ℝ))])
      (by nlinarith [abs_nonneg ((b : ℝ) - (a : ℝ))])]
  ring

lemma spec_earth_distance_nonneg (a b c d : ℚ) : 0 ≤ spec_earth_distance a b c d := by
  simp only [spec_earth_distance]
  have h : 0 ≤ Real.arcsin (Real.sqrt (Real.sin (((c:ℝ) * Real.pi / 180
      - (a:ℝ) * Real.pi / 180) / 2) ^ 2 + Real.cos ((a:ℝ) * Real.pi / 180)
      * Real.cos ((c:ℝ) * Real.pi / 180)
      * Real.sin (((d:ℝ) - (b:ℝ)) * Real.pi / 180 / 2) ^ 2)) :=
    Real.arcsin_nonneg.mpr (Real.sqrt_nonneg _)
  nlinarith [h]

lemma distance_to_nonneg (f g : GNSSFix) : 0 ≤ distance_to f g :=
  spec_earth_distance_nonneg f.lat f.lon g.lat g.lon

/-- Bridge from the real-valued ground speeds to a rational predicate:
on a track of fixes spaced 1/100 degree apart in latitude on the
meridian, the flying emission is 1 exactly for the pairs one second
apart (the −8 s pair has negative ground speed). -/
lemma emissions_bridge (f0 : GNSSFix) (t : List GNSSFix)
    (hp : ∀ p ∈ (f0 :: t).zip t,
      p.2.lat - p.1.lat = 1/100 ∧ p.1.lon = 0 ∧ p.2.lon = 0
        ∧ (p.2.rawtime - p.1.rawtime = 1 ∨ p.2.rawtime - p.1.rawtime = -8)) :
    flyingEmissions defaultConfig (computeGroundSpeeds distance_to (f0 :: t))
      = 0 :: ((f0 :: t).zip t).map
          (fun p => if p.2.rawtime - p.1.rawtime = 1 then 1 else 0) := by
  simp only [computeGroundSpeeds, flyingEmissions, List.tail_cons, List.map_cons, List.map_map]
  refine congrArg₂ List.cons ?_ ?_
  · rw [if_neg]
    norm_num [defaultConfig]
  · apply List.map_congr_left
    intro p hpm
    obtain ⟨hlat, hlon1, hlon2, hdt⟩ := hp p hpm
    have hcast : (p.2.lat : ℝ) - (p.1.lat : ℝ) = 1/100 := by
      have h' := congrArg (fun q : ℚ => (q : ℝ)) hlat
      push_cast at h'
      exact h'
    have h15 : ((defaultConfig.min_gsp_flight : ℚ) : ℝ) = 15 := by
      norm_num [defaultConfig]
    simp only [Function.comp_apply]
    rcases hdt with hdt | hdt
    · rw [hdt, if_neg (show ¬(|(1:ℚ)| < 1/100000) from by norm_num)]
      have hd : distance_to p.2 p.1
          = 6371 * |(p.1.lat : ℝ) - (p.2.lat : ℝ)| * Real.pi / 180 := by
        rw [distance_to, hlon2, hlon1]
        refine spec_earth_distance_meridian p.2.lat p.1.lat ?_
        rw [show (p.1.lat : ℝ) - (p.2.lat : ℝ) = -(1/100) from by linarith, abs_neg,
          abs_of_pos (show (0:ℝ) < 1/100 by norm_num)]
        norm_num
      rw [hd, show |(p.1.lat : ℝ) - (p.2.lat : ℝ)| = 1/100 from by
        rw [show (p.1.lat : ℝ) - (p.2.lat : ℝ) = -(1/100) from by linarith, abs_neg]
        exact abs_of_pos (show (0:ℝ) < 1/100 by norm_num)]
      split
      · rw [if_pos rfl]
      · rename_i hC
        exfalso
        apply hC
        rw [h15]
        push_cast
        nlinarith [Real.pi_gt_three]
    · rw [hdt, if_neg (show ¬(|(-8:ℚ)| < 1/100000) from by norm_num)]
      split
      · rename_i hC
        exfalso
        rw [h15] at hC
        push_cast at hC
        nlinarith [distance_to_nonneg p.2 p.1]
      · rw [if_neg (show ¬((-8:ℚ) = 1) from by norm_num)]

/-- Fifty fixes climbing the meridian at 0.01° per second, with a
backward rawtime jump of 8 s between fixes 39 and 40 (too small to be
treated as a midnight crossing): a fully valid flight whose repaired
rawtime sequence is not monotone. -/
def cex2Fixes : List GNSSFix :=
  (List.range 50).map (fun (i : ℕ) =>
    mkFix (if i < 40 then ((i : ℕ) : ℚ) else ((i : ℕ) : ℚ) - 9) (((i : ℕ) : ℚ) / 100)
      (if i % 2 = 0 then 0 else 1) i)


lemma cex2_emissions :
    flyingEmissions defaultConfig (computeGroundSpeeds distance_to (setAlts
        ((if (check_altitudes defaultConfig cex2Fixes).1 then AltSource.press
          else AltSource.gnss) == AltSource.press)
        (check_fix_rawtime defaultConfig cex2Fixes).1))
      = 0 :: (((setAlts
        ((if (check_altitudes defaultConfig cex2Fixes).1 then AltSource.press
          else AltSource.gnss) == AltSource.press)
        (check_fix_rawtime defaultConfig cex2Fixes).1).zip (setAlts
        ((if (check_altitudes defaultConfig cex2Fixes).1 then AltSource.press
          else AltSource.gnss) == AltSource.press)
        (check_fix_rawtime defaultConfig cex2Fixes).1).tail).map
          (fun p => if p.2.rawtime - p.1.rawtime = 1 then 1 else 0)) := by
  have hp : ∀ p ∈ (setAlts
        ((if (check_altitudes defaultConfig cex2Fixes).1 then AltSource.press
          else AltSource.gnss) == AltSource.press)
        (check_fix_rawtime defaultConfig cex2Fixes).1).zip (setAlts
        ((if (check_altitudes defaultConfig cex2Fixes).1 then AltSource.press
          else AltSource.gnss) == AltSource.press)
        (check_fix_rawtime defaultConfig cex2Fixes).1).tail,
      p.2.lat - p.1.lat = 1/100 ∧ p.1.lon = 0 ∧ p.2.lon = 0
        ∧ (p.2.rawtime - p.1.rawtime = 1 ∨ p.2.rawtime - p.1.rawtime = -8) := by
    with_unfolding_all decide
  rcases hF : (setAlts
        ((if (check_altitudes defaultConfig cex2Fixes).1 then AltSource.press
          else AltSource.gnss) == AltSource.press)
        (check_fix_rawtime defaultConfig cex2Fixes).1) with _ | ⟨f0, t⟩
  · exact absurd hF (by with_unfolding_all decide)
  · rw [hF] at hp
    simp only [List.tail_cons] at hp ⊢
    exact emissions_bridge f0 t hp

lemma cex2_flags :
    compute_flight defaultConfig distance_to (setAlts
        ((if (check_altitudes defaultConfig cex2Fixes).1 then AltSource.press
          else AltSource.gnss) == AltSource.press)
        (check_fix_rawtime defaultConfig cex2Fixes).1) = List.replicate 50 true := by
  simp only [compute_flight, cex2_emissions]
  with_unfolding_all decide

lemma cex2_flight_facts :
    (flightInit defaultConfig distance_to bearing_to cex2Fixes (some 0)).valid = true
    ∧ (flightInit defaultConfig distance_to bearing_to cex2Fixes (some 0)).fixes
      = (setAlts
        ((if (check_altitudes defaultConfig cex2Fixes).1 then AltSource.press
          else AltSource.gnss) == AltSource.press)
        (check_fix_rawtime defaultConfig cex2Fixes).1) := by
  simp only [flightInit]
  rw [if_neg (show ¬(cex2Fixes.length < defaultConfig.min_fixes) from
      by with_unfolding_all decide),
    if_neg (show ¬((check_fix_rawtime defaultConfig cex2Fixes).2.2
        > defaultConfig.max_time_violations
      ∨ (check_fix_rawtime defaultConfig cex2Fixes).2.1
        > defaultConfig.max_new_days_in_flight) from by with_unfolding_all decide),
    if_neg (show ¬((check_altitudes defaultConfig cex2Fixes).1 = false
      ∧ (check_altitudes defaultConfig cex2Fixes).2.1 = false) from
      by with_unfolding_all decide),
    cex2_flags]
  rcases hres : compute_takeoff_landing defaultConfig
      ((setAlts
        ((if (check_altitudes defaultConfig cex2Fixes).1 then AltSource.press
          else AltSource.gnss) == AltSource.press)
        (check_fix_rawtime defaultConfig cex2Fixes).1).zip (List.replicate 50 true)) with _ | tl
  · exact absurd hres (by with_unfolding_all decide)
  · exact ⟨rfl, rfl⟩

/-- Counterexample to C2 as stated: a flight that finishes
construction with `valid = true` whose repaired rawtime sequence is
not monotone (fix 40 is 8 seconds before fix 39; the backward jump is
far too small to be repaired as a midnight crossing, and it counts as
a single time violation, well under `max_time_violations`). -/
theorem valid_flight_time_not_monotone :
    (flightInit defaultConfig distance_to bearing_to cex2Fixes (some 0)).valid = true
    ∧ ((flightInit defaultConfig distance_to bearing_to cex2Fixes (some 0)).fixes.map
          GNSSFix.rawtime).getD 40 0
        < ((flightInit defaultConfig distance_to bearing_to cex2Fixes (some 0)).fixes.map
          GNSSFix.rawtime).getD 39 0 :=
  ⟨cex2_flight_facts.1, by
    rw [cex2_flight_facts.2]
    with_unfolding_all decide⟩

/-- Closed witness for `valid_time_gaps_bounded` at the concrete valid
flight `cex2Fixes`. -/
theorem valid_time_gaps_bounded_witness :
    countLowGaps defaultConfig
        ((flightInit defaultConfig distance_to bearing_to cex2Fixes (some 0)).fixes.map
          GNSSFix.rawtime)
      ≤ defaultConfig.max_time_violations :=
  valid_time_gaps_bounded defaultConfig distance_to bearing_to cex2Fixes (some 0)
    cex2_flight_facts.1

end Libigc
